import Mathlib

/-!
# The DDI client of up2date-cpp: poll / dispatch / retry / auth-recovery engine

A shallow embedding of `ddi/src/ddi_client_impl.cpp`.

* Exceptions are values of `Exn`; a function that may throw returns
  `Except Exn α` together with the machine state reached at that point
  (a C++ exception does not undo the side effects made before it).
* The client object is `ClientState`; what lies outside the client (server,
  file system, application objects) is an arbitrary type `App`, moved along by
  the external collaborators collected in `World`.
* `Machine.trace` is an observation log: which external entry points were
  called and in which order.  It is written by the embedded functions only.
-/

set_option autoImplicit false

namespace ddi

/-! ## Constants and exceptions -/

/-- Name of the header that carries the token (source line 20). -/
def AUTHORIZATION_HEADER : String := "Authorization"

/-- Scheme word of a gateway token (source line 21). -/
def GATEWAY_TOKEN_HEADER : String := "GatewayToken"

/-- Scheme word of a device token (source line 22). -/
def TARGET_TOKEN_HEADER : String := "TargetToken"

/-- Modelled from the spec: the expected status of every request (the constant
is declared in a header that is not part of the unit). -/
def HTTP_OK : Int := 200

/-- Modelled from the spec: the status that means "unauthorized" (the constant
is declared in a header that is not part of the unit). -/
def HTTP_UNAUTHORIZED : Int := 401

/-- The value of `httplib::Error::Success` once cast to `int`. -/
def Error_Success : Int := 0

/-- The exceptions the unit throws, by class name.  `other` stands for any
exception raised by code outside the unit (decoders).  `undefined_behaviour`
is not an exception: it marks an execution that reads a string out of its
bounds, for which the language defines no result; no handler catches it. -/
inductive Exn where
  | unauthorized_exception
  | http_unexpected_code_exception (presented expected : Int)
  | http_lib_error (code : Int)
  | client_initialize_error (what : String)
  | wrong_response
  | other (what : String)
  | undefined_behaviour
  deriving DecidableEq, Repr

/-- Body of `checkHttpCode` (source lines 24-29). -/
def checkHttpCode (presented expected : Int) : Except Exn Unit :=
  if presented = HTTP_UNAUTHORIZED then
    .error .unauthorized_exception
  else if presented ≠ expected then
    .error (.http_unexpected_code_exception presented expected)
  else
    .ok ()

/-! ## Data model -/

/-- Modelled from the spec: a parsed URI (class `uri::URI` is declared outside
the unit); only the three components the unit reads are kept. -/
structure URI where
  scheme : String
  authority : String
  path : String
  deriving DecidableEq, Repr

/-- Accessor `getScheme`. -/
def URI.getScheme (u : URI) : String := u.scheme

/-- Accessor `getAuthority`. -/
def URI.getAuthority (u : URI) : String := u.authority

/-- Accessor `getPath`. -/
def URI.getPath (u : URI) : String := u.path

/-- Modelled from the spec: a URI is empty ("endpoint unset") when it has no
component at all. -/
def URI.isEmpty (u : URI) : Bool :=
  u.scheme.data.isEmpty && u.authority.data.isEmpty && u.path.data.isEmpty

/-- The member `mTLSKeypair`. -/
structure KeyPair where
  isSet : Bool
  crt : String
  key : String
  deriving DecidableEq, Repr

/-- The type `httplib::Headers`: a multimap from header name to value whose key
comparison ignores ASCII case.  Entries are listed in insertion order; entries
with equivalent keys keep that order, as in `std::multimap`. -/
abbrev Headers := List (String × String)

/-- Two header names are the same key when they agree up to ASCII case. -/
def Headers.sameKey (a b : String) : Bool :=
  a.data.map Char.toLower == b.data.map Char.toLower

/-- The call `insert` of a multimap: the entry is added, nothing is replaced. -/
def Headers.insert (h : Headers) (entry : String × String) : Headers :=
  h ++ [entry]

/-- The call `erase(key)` of a multimap: every entry with that key goes. -/
def Headers.erase (h : Headers) (key : String) : Headers :=
  h.filter (fun e => !Headers.sameKey e.1 key)

/-- All values stored under a key (`equal_range`). -/
def Headers.values (h : Headers) (key : String) : List String :=
  (h.filter (fun e => Headers.sameKey e.1 key)).map Prod.snd

/-- The members of `HawkbitCommunicationClient` that the unit reads or writes.
The two handler pointers are external collaborators and live in `World`. -/
structure ClientState where
  hawkbitURI : URI
  defaultHeaders : Headers
  mTLSKeypair : KeyPair
  serverCertificateVerify : Bool
  ignoreSleep : Bool
  currentSleepTime : Int
  defaultSleepTime : Int
  deriving DecidableEq, Repr

/-- What `newHttpClient` hands to `httplib::Client`: the origin string and
either the PEM pair of the device (mutual TLS) or the verification toggle. -/
structure HttpClient where
  origin : String
  clientCert : Option (String × String)
  serverCertificateVerification : Bool
  deriving DecidableEq, Repr

/-- Body of `newHttpClient` (source lines 74-96).  Decoding the PEM text is
left to the TLS library, so the client is described by the text it is given;
a client built with a certificate keeps the library default (verify). -/
def newHttpClient (c : ClientState) (hostEndpoint : URI) : HttpClient :=
  if c.mTLSKeypair.isSet then
    { origin := hostEndpoint.getScheme ++ "://" ++ hostEndpoint.getAuthority
      clientCert := some (c.mTLSKeypair.crt, c.mTLSKeypair.key)
      serverCertificateVerification := true }
  else
    { origin := hostEndpoint.getScheme ++ "://" ++ hostEndpoint.getAuthority
      clientCert := none
      serverCertificateVerification := c.serverCertificateVerify }

/-- The HTTP verbs the unit uses. -/
inductive Method where
  | GET
  | PUT
  | POST
  deriving DecidableEq, Repr

/-- One call on `httplib::Client`: verb, path, headers and, for PUT and POST,
body and content type. -/
structure HttpRequest where
  method : Method
  path : String
  headers : Headers
  body : String
  contentType : String
  deriving DecidableEq, Repr

/-- The type `httplib::Result`: the transport error code (as `int`) and the
response it points to. -/
structure HttpResult where
  error : Int
  status : Int
  body : String
  deriving DecidableEq, Repr

/-- What a request function does on the outside while it runs. -/
inductive WireEvent where
  | http (req : HttpRequest)
  | fileWrite (data : String)
  | receive (data : String)
  deriving DecidableEq, Repr

/-- Entries of the observation log. -/
inductive Event where
  | invoke (cli : HttpClient)
  | wire (e : WireEvent)
  | authError
  | configRequest
  | noActions
  | cancelAction (id : Int)
  | deploymentAction (id : Int)
  | successfulDelivery
  | deliveryError
  | sleep (ms : Int)
  deriving DecidableEq, Repr

/-- The client, the outside, and the observation log. -/
structure Machine (App : Type) where
  client : ClientState
  app : App
  trace : List Event

/-- Result of a function that may throw, with the state it leaves. -/
abbrev Outcome (App : Type) (α : Type) := Except Exn α × Machine App

/-- One run of a request function (the `std::function` handed to
`retryHandler`): what it did on the wire, what it returned or threw, and the
outside it leaves. -/
structure Attempt (App : Type) where
  emitted : List WireEvent
  outcome : Except Exn HttpResult
  app : App

/-- A request function.  The lambdas of the unit capture by reference, so a
run sees the client as it is when the function is called. -/
abbrev RequestFn (App : Type) := HttpClient → ClientState → App → Attempt App

/-! ## Credential setters (source lines 329-364) -/

/-- Body of `formatAuthHeader` (source lines 336-338). -/
def formatAuthHeader (authType val : String) : String :=
  authType ++ " " ++ val

/-- Body of `setTLS` (source lines 329-334). -/
def setTLS (c : ClientState) (crt key : String) : ClientState :=
  { c with
    mTLSKeypair := { isSet := true, crt := crt, key := key }
    defaultHeaders := c.defaultHeaders.erase AUTHORIZATION_HEADER }

/-- Body of `setEndpoint(endpoint)` (source lines 340-342); `fromString` is
the URI parser, which is outside the unit. -/
def setEndpoint (fromString : String → URI) (c : ClientState) (endpoint : String) :
    ClientState :=
  { c with hawkbitURI := fromString endpoint }

/-- Body of `setDeviceToken` (source lines 344-350). -/
def setDeviceToken (c : ClientState) (token : String) : ClientState :=
  { c with
    defaultHeaders :=
      c.defaultHeaders.insert (AUTHORIZATION_HEADER, formatAuthHeader TARGET_TOKEN_HEADER token)
    mTLSKeypair := { isSet := false, crt := "", key := "" } }

/-- Body of `setGatewayToken` (source lines 352-358). -/
def setGatewayToken (c : ClientState) (token : String) : ClientState :=
  { c with
    defaultHeaders :=
      c.defaultHeaders.insert (AUTHORIZATION_HEADER, formatAuthHeader GATEWAY_TOKEN_HEADER token)
    mTLSKeypair := { isSet := false, crt := "", key := "" } }

/-- Body of `setEndpoint(hawkbitEndpoint, controllerId, tenant)` (source lines
360-364); `hawkbitEndpointFrom` builds the endpoint text outside the unit. -/
def setEndpointFrom (fromString : String → URI)
    (hawkbitEndpointFrom : String → String → String → String)
    (c : ClientState) (hawkbitEndpoint controllerId tenant : String) : ClientState :=
  setEndpoint fromString c (hawkbitEndpointFrom hawkbitEndpoint controllerId tenant)

/-- The calls offered by `AuthRestoreHandler_` (source lines 31-57), each
forwarded to the setter of the same name. -/
inductive RestoreOp where
  | setTLS (crt key : String)
  | setEndpoint (endpoint : String)
  | setDeviceToken (token : String)
  | setGatewayToken (token : String)
  | setEndpointFrom (hawkbitEndpoint controllerId tenant : String)
  deriving DecidableEq, Repr

/-- Modelled from the spec: the `finished` status of a feedback (the enum is
declared in the response header, outside the unit); `SUCCESS` is the member
the unit names. -/
inductive Finished where
  | SUCCESS
  | FAILURE
  | NONE
  deriving DecidableEq, Repr

/-- Modelled from the spec: the `execution` status of a feedback (declared
outside the unit); `CLOSED` is the member the unit names. -/
inductive Execution where
  | CLOSED
  | PROCEEDING
  | CANCELED
  | SCHEDULED
  | REJECTED
  | RESUMED
  deriving DecidableEq, Repr

/-- Modelled from the spec: the mode tag of a config request (declared outside
the unit). -/
inductive Mode where
  | MERGE
  | REPLACE
  | REMOVE
  deriving DecidableEq, Repr

/-- The action kinds `doPoll` switches on (source lines 257-265). -/
inductive Actions_ where
  | NONE
  | GET_CONFIG_DATA
  | CANCEL_ACTION
  | DEPLOYMENT_BASE
  deriving DecidableEq, Repr

/-- A JSON value as the unit builds it with rapidjson: strings, arrays, and
objects whose members are kept in the order of `AddMember`. -/
inductive Json where
  | str (s : String)
  | arr (items : List Json)
  | obj (members : List (String × Json))

/-- The members of a JSON object, in the order they were added. -/
abbrev Members := List (String × Json)

/-- The call `HasMember` of an object. -/
def Members.hasMember (m : Members) (name : String) : Bool :=
  m.any (fun e => e.1 == name)

/-- The call `FindMember` of an object: the first member of that name. -/
def Members.findMember (m : Members) (name : String) : Option Json :=
  (m.find? (fun e => e.1 == name)).map Prod.snd

/-- Modelled from the spec: the decoded poll response (class `PollingData_`
is declared outside the unit). -/
structure PollingData where
  getSleepTime : Int
  getFollowURI : URI
  getAction : Actions_
  deriving DecidableEq, Repr

/-- Modelled from the spec: the decoded cancel action, carrying its action id
(class `CancelAction_` is declared outside the unit). -/
structure CancelAction where
  getId : Int
  content : String
  deriving DecidableEq, Repr

/-- Modelled from the spec: the decoded deployment, carrying its action id
(class `DeploymentBase_` is declared outside the unit). -/
structure DeploymentBase where
  getId : Int
  content : String
  deriving DecidableEq, Repr

/-- Modelled from the spec: what `onConfigRequest` returns, a key to value
mapping listed in iteration order, a mode tag and the ignore-sleep flag. -/
structure ConfigRequest where
  getData : List (String × String)
  getMode : Mode
  isIgnoredSleep : Bool
  deriving DecidableEq, Repr

/-- Library functions the unit calls and does not define: the URI parser, the
endpoint builder, the three enum printers, the rapidjson writer and the three
decoders (which may throw). -/
structure Externals where
  uriFromString : String → URI
  hawkbitEndpointFrom : String → String → String → String
  finishedToString : Finished → String
  executionToString : Execution → String
  modeToString : Mode → String
  accept : Json → String
  pollingDataFromString : String → Except Exn PollingData
  cancelActionFromString : String → Except Exn CancelAction
  deploymentBaseFrom : String → Except Exn DeploymentBase

/-- One call on the restore handle. -/
def RestoreOp.apply (X : Externals) (c : ClientState) : RestoreOp → ClientState
  | .setTLS crt key => ddi.setTLS c crt key
  | .setEndpoint endpoint => ddi.setEndpoint X.uriFromString c endpoint
  | .setDeviceToken token => ddi.setDeviceToken c token
  | .setGatewayToken token => ddi.setGatewayToken c token
  | .setEndpointFrom h cid t =>
      ddi.setEndpointFrom X.uriFromString X.hawkbitEndpointFrom c h cid t

/-! ## External collaborators -/

/-- Modelled from the spec: the delivery listener a feedback may carry; each
callback acts on the outside. -/
structure DeliveryListener (App : Type) where
  onSuccessfulDelivery : App → App
  onError : App → App

/-- Modelled from the spec: the feedback an application handler returns
(class `Response` is declared outside the unit). -/
structure Response (App : Type) where
  getFinished : Finished
  getExecution : Execution
  getDetails : List String
  isIgnoredSleep : Bool
  getDeliveryListener : Option (DeliveryListener App)

/-- Modelled from the spec: `ResponseBuilder`, whose `build` yields a
feedback with the statuses set on it, no details, no listener and the
ignore-sleep flag off unless they were set. -/
structure ResponseBuilder (App : Type) where
  finished : Finished
  execution : Execution
  details : List String
  ignoredSleep : Bool
  listener : Option (DeliveryListener App)

/-- A fresh builder. -/
def ResponseBuilder.newInstance {App : Type} : ResponseBuilder App :=
  { finished := .NONE, execution := .CLOSED, details := [], ignoredSleep := false,
    listener := none }

/-- Builder step `setFinished`. -/
def ResponseBuilder.setFinished {App : Type} (b : ResponseBuilder App) (f : Finished) :
    ResponseBuilder App :=
  { b with finished := f }

/-- Builder step `setExecution`. -/
def ResponseBuilder.setExecution {App : Type} (b : ResponseBuilder App) (e : Execution) :
    ResponseBuilder App :=
  { b with execution := e }

/-- Builder step `build`. -/
def ResponseBuilder.build {App : Type} (b : ResponseBuilder App) : Response App :=
  { getFinished := b.finished, getExecution := b.execution, getDetails := b.details,
    isIgnoredSleep := b.ignoredSleep, getDeliveryListener := b.listener }

/-- The application handler (`handler`).  `onCancelAction` and
`onDeploymentAction` return a possibly null feedback.  A deployment is decoded
with the client as its download provider, so its handler may run requests of
its own: it is given the whole machine and may throw. -/
structure Handler (App : Type) where
  onConfigRequest : App → ConfigRequest × App
  onNoActions : App → App
  onCancelAction : CancelAction → App → Option (Response App) × App
  onDeploymentAction : DeploymentBase → Machine App →
    Except Exn (Option (Response App)) × Machine App

/-- Everything outside the client: the HTTP transport (one plain call on an
`httplib::Client`), the optional auth-recovery callback, which answers with
the calls it makes on the restore handle, and the application handler. -/
structure World (App : Type) where
  transport : HttpClient → HttpRequest → App → HttpResult × App
  authErrorHandler : Option (App → List RestoreOp × App)
  handler : Handler App

/-- A plain call `cli.Get / cli.Put / cli.Post`: the request goes on the wire
and the transport answers. -/
def send {App : Type} (W : World App) (cli : HttpClient) (req : HttpRequest) (app : App) :
    Attempt App :=
  { emitted := [WireEvent.http req]
    outcome := .ok (W.transport cli req app).1
    app := (W.transport cli req app).2 }

/-- The call `authErrorHandler->onAuthError(make_unique<AuthRestoreHandler_>(this))`
(source lines 62-63 and 322-323): the callback runs once and its calls on the
handle reach the setters in order. -/
def onAuthError {App : Type} (X : Externals) (cb : App → List RestoreOp × App)
    (s : Machine App) : Machine App :=
  { client := (cb s.app).1.foldl (RestoreOp.apply X) s.client
    app := (cb s.app).2
    trace := s.trace ++ [Event.authError] }

/-! ## Request executor and retry wrapper (source lines 305-327) -/

/-- Body of `wrappedRequest` (source lines 305-314). -/
def wrappedRequest {App : Type} (reqUri : URI) (func : RequestFn App) (s : Machine App) :
    Outcome App HttpResult :=
  let cli := newHttpClient s.client reqUri
  let a := func cli s.client s.app
  let s1 : Machine App :=
    { s with app := a.app, trace := s.trace ++ Event.invoke cli :: a.emitted.map Event.wire }
  match a.outcome with
  | .error e => (.error e, s1)
  | .ok resp =>
    if resp.error ≠ Error_Success then
      (.error (.http_lib_error resp.error), s1)
    else
      match checkHttpCode resp.status HTTP_OK with
      | .error e => (.error e, s1)
      | .ok () => (.ok resp, s1)

/-- Body of `retryHandler` (source lines 316-327). -/
def retryHandler {App : Type} (X : Externals) (W : World App) (reqUri : URI)
    (func : RequestFn App) (s : Machine App) : Outcome App HttpResult :=
  match wrappedRequest reqUri func s with
  | (.error .unauthorized_exception, s1) =>
    match W.authErrorHandler with
    | none => (.error .unauthorized_exception, s1)
    | some cb => wrappedRequest reqUri func (onAuthError X cb s1)
  | r => r

/-! ## Feedback document (source lines 98-123) -/

/-- The call `std::to_string(int)`: decimal digits, with a minus sign in front
of a negative number. -/
def to_string : Int → String
  | Int.ofNat n => Nat.repr n
  | Int.negSucc n => "-" ++ Nat.repr (n + 1)

/-- Body of `fillResponseDocument` (source lines 99-123); `document` is the
member list of the document object and `none` is the null pointer. -/
def fillResponseDocument {App : Type} (X : Externals) (response : Option (Response App))
    (document : Members) (actionId : Int) : Except Exn Members :=
  match response with
  | none => .error .wrong_response
  | some response =>
    let result : Members := [("finished", Json.str (X.finishedToString response.getFinished))]
    let status : Members :=
      [("result", Json.obj result),
       ("execution", Json.str (X.executionToString response.getExecution))]
    let details : List Json := response.getDetails.map Json.str
    let status := status ++ [("details", Json.arr details)]
    let document := document ++ [("status", Json.obj status)]
    if actionId ≥ 0 then
      .ok (document ++ [("id", Json.str (to_string actionId))])
    else
      .ok document

/-! ## Config-data sub-protocol (source lines 125-159) -/

/-- Body of `followConfigData` (source lines 125-159). -/
def followConfigData {App : Type} (X : Externals) (W : World App) (followURI : URI)
    (s : Machine App) : Outcome App Unit :=
  let req := (W.handler.onConfigRequest s.app).1
  let s0 : Machine App :=
    { s with app := (W.handler.onConfigRequest s.app).2
             trace := s.trace ++ [Event.configRequest] }
  let requestData := req.getData
  if requestData.isEmpty then
    (.ok (), s0)
  else
    let document : Members := []
    let data : Members := requestData.map (fun val => (val.1, Json.str val.2))
    let document := document ++ [("data", Json.obj data)]
    let document := document ++ [("mode", Json.str (X.modeToString req.getMode))]
    let builder : ResponseBuilder App := ResponseBuilder.newInstance
    let resp := ((builder.setFinished Finished.SUCCESS).setExecution Execution.CLOSED).build
    match fillResponseDocument X (some resp) document (-1) with
    | .error e => (.error e, s0)
    | .ok document =>
      let buf := X.accept (Json.obj document)
      match retryHandler X W followURI
          (fun cli c app =>
            send W cli
              { method := .PUT, path := followURI.getPath, headers := c.defaultHeaders,
                body := buf, contentType := "application/json" } app) s0 with
      | (.error e, s1) => (.error e, s1)
      | (.ok _, s1) =>
        (.ok (), { s1 with client := { s1.client with ignoreSleep := req.isIgnoredSleep } })

/-! ## Feedback path (source lines 163-170) -/

/-- Body of `formatFeedbackPath` (source lines 163-170).  The function reads
`path[path.length() - 1]`; on an empty path that index is out of range and
there is no defined result (`none`).  A byte `/` of a UTF-8 text is always a
whole character, so the last byte is `/` exactly when the last character is. -/
def formatFeedbackPath (uri : URI) : Option String :=
  let path := uri.getPath
  match path.data.getLast? with
  | none => none
  | some c =>
    let path := if c ≠ '/' then path ++ "/" else path
    some (path ++ "feedback")

/-! ## Cancel-action and deployment-base sub-protocols (source lines 172-245) -/

/-- The lambda of source lines 173-175 and 211-213:
`cli.Get(followURI.getPath().c_str(), defaultHeaders)`. -/
def getFollowUp {App : Type} (W : World App) (followURI : URI) : RequestFn App :=
  fun cli c app =>
    send W cli
      { method := .GET, path := followURI.getPath, headers := c.defaultHeaders,
        body := "", contentType := "" } app

/-- The lambda of source lines 190-193 and 227-230:
`cli.Post(formatFeedbackPath(followURI).c_str(), defaultHeaders, buf.GetString(),
"application/json")`.  Where `formatFeedbackPath` has no defined result the
run has none either. -/
def postFeedback {App : Type} (W : World App) (followURI : URI) (buf : String) :
    RequestFn App :=
  fun cli c app =>
    match formatFeedbackPath followURI with
    | none => { emitted := [], outcome := .error .undefined_behaviour, app := app }
    | some path =>
      send W cli
        { method := .POST, path := path, headers := c.defaultHeaders,
          body := buf, contentType := "application/json" } app

/-- Body of `followCancelAction` (source lines 172-208). -/
def followCancelAction {App : Type} (X : Externals) (W : World App) (followURI : URI)
    (s : Machine App) : Outcome App Unit :=
  match retryHandler X W followURI
      (getFollowUp W followURI) s with
  | (.error e, s1) => (.error e, s1)
  | (.ok resp, s1) =>
    match X.cancelActionFromString resp.body with
    | .error e => (.error e, s1)
    | .ok cancelAction =>
      let actionId := cancelAction.getId
      let cliResp := (W.handler.onCancelAction cancelAction s1.app).1
      let s2 : Machine App :=
        { s1 with app := (W.handler.onCancelAction cancelAction s1.app).2
                  trace := s1.trace ++ [Event.cancelAction actionId] }
      let document : Members := []
      match fillResponseDocument X cliResp document actionId, cliResp with
      | .error e, _ => (.error e, s2)
      | .ok _, none => (.error .wrong_response, s2)
      | .ok document, some cliResp =>
        let buf := X.accept (Json.obj document)
        match retryHandler X W followURI
            (postFeedback W followURI buf) s2 with
        | (.ok _, s3) =>
          match cliResp.getDeliveryListener with
          | some l =>
            (.ok (),
              { client := { s3.client with ignoreSleep := cliResp.isIgnoredSleep }
                app := l.onSuccessfulDelivery s3.app
                trace := s3.trace ++ [Event.successfulDelivery] })
          | none =>
            (.ok (), { s3 with client := { s3.client with ignoreSleep := cliResp.isIgnoredSleep } })
        | (.error (.http_unexpected_code_exception presented expected), s3) =>
          match cliResp.getDeliveryListener with
          | some l =>
            (.ok (),
              { client := { s3.client with ignoreSleep := cliResp.isIgnoredSleep }
                app := l.onError s3.app
                trace := s3.trace ++ [Event.deliveryError] })
          | none => (.error (.http_unexpected_code_exception presented expected), s3)
        | (.error e, s3) => (.error e, s3)

/-- Body of `followDeploymentBase` (source lines 210-245). -/
def followDeploymentBase {App : Type} (X : Externals) (W : World App) (followURI : URI)
    (s : Machine App) : Outcome App Unit :=
  match retryHandler X W followURI
      (getFollowUp W followURI) s with
  | (.error e, s1) => (.error e, s1)
  | (.ok resp, s1) =>
    match X.deploymentBaseFrom resp.body with
    | .error e => (.error e, s1)
    | .ok deploymentBase =>
      let actionId := deploymentBase.getId
      match W.handler.onDeploymentAction deploymentBase
          { s1 with trace := s1.trace ++ [Event.deploymentAction actionId] } with
      | (.error e, s2) => (.error e, s2)
      | (.ok cliResp, s2) =>
        let document : Members := []
        match fillResponseDocument X cliResp document actionId, cliResp with
        | .error e, _ => (.error e, s2)
        | .ok _, none => (.error .wrong_response, s2)
        | .ok document, some cliResp =>
          let buf := X.accept (Json.obj document)
          match retryHandler X W followURI
              (postFeedback W followURI buf) s2 with
          | (.ok _, s3) =>
            match cliResp.getDeliveryListener with
            | some l =>
              (.ok (),
                { client := { s3.client with ignoreSleep := cliResp.isIgnoredSleep }
                  app := l.onSuccessfulDelivery s3.app
                  trace := s3.trace ++ [Event.successfulDelivery] })
            | none =>
              (.ok (),
                { s3 with client := { s3.client with ignoreSleep := cliResp.isIgnoredSleep } })
          | (.error (.http_unexpected_code_exception presented expected), s3) =>
            match cliResp.getDeliveryListener with
            | some l =>
              (.ok (),
                { client := { s3.client with ignoreSleep := cliResp.isIgnoredSleep }
                  app := l.onError s3.app
                  trace := s3.trace ++ [Event.deliveryError] })
            | none => (.error (.http_unexpected_code_exception presented expected), s3)
          | (.error e, s3) => (.error e, s3)

/-! ## Poll and loop (source lines 59-72 and 247-267) -/

/-- Body of `doPoll` (source lines 247-267).  The GET lambda reads the path of
`hawkbitURI` when it runs, while `retryHandler` received a copy of the URI. -/
def doPoll {App : Type} (X : Externals) (W : World App) (s : Machine App) : Outcome App Unit :=
  match retryHandler X W s.client.hawkbitURI
      (fun cli c app =>
        send W cli
          { method := .GET, path := c.hawkbitURI.getPath, headers := c.defaultHeaders,
            body := "", contentType := "" } app) s with
  | (.error e, s1) => (.error e, s1)
  | (.ok resp, s1) =>
    match X.pollingDataFromString resp.body with
    | .error e => (.error e, s1)
    | .ok polingData =>
      let s2 : Machine App :=
        { s1 with client :=
            { s1.client with currentSleepTime :=
                if polingData.getSleepTime > 0 then polingData.getSleepTime
                else s1.client.defaultSleepTime } }
      let followURI := polingData.getFollowURI
      match polingData.getAction with
      | .NONE =>
        (.ok (), { s2 with app := W.handler.onNoActions s2.app
                           trace := s2.trace ++ [Event.noActions] })
      | .GET_CONFIG_DATA => followConfigData X W followURI s2
      | .CANCEL_ACTION => followCancelAction X W followURI s2
      | .DEPLOYMENT_BASE => followDeploymentBase X W followURI s2

/-- One pass of the body of `while (true)` in `run` (source lines 67-70). -/
def iteration {App : Type} (X : Externals) (W : World App) (s : Machine App) :
    Outcome App Unit :=
  match doPoll X W { s with client := { s.client with ignoreSleep := false } } with
  | (.error e, s1) => (.error e, s1)
  | (.ok (), s1) =>
    if !s1.client.ignoreSleep && s1.client.currentSleepTime > 0 then
      (.ok (), { s1 with trace := s1.trace ++ [Event.sleep s1.client.currentSleepTime] })
    else
      (.ok (), s1)

/-- The first `n` passes of `while (true)` (source lines 66-71); the loop has
no exit, so `ok` means that it is still running after `n` passes. -/
def loop {App : Type} (X : Externals) (W : World App) : Nat → Machine App → Outcome App Unit
  | 0, s => (.ok (), s)
  | n + 1, s =>
    match iteration X W s with
    | (.error e, s1) => (.error e, s1)
    | (.ok (), s1) => loop X W n s1

/-- Body of `run` (source lines 59-72), followed for `n` passes of its loop. -/
def run {App : Type} (X : Externals) (W : World App) (n : Nat) (s : Machine App) :
    Outcome App Unit :=
  if s.client.hawkbitURI.isEmpty then
    match W.authErrorHandler with
    | none => (.error (.client_initialize_error "endpoint or AuthErrorHandler is not set"), s)
    | some cb => loop X W n (onAuthError X cb s)
  else
    loop X W n s

/-- The lambda of `doPoll` (source lines 250-252):
`cli.Get(hawkbitURI.getPath().c_str(), defaultHeaders)`, which reads the
member `hawkbitURI` when it runs. -/
def pollGet {App : Type} (W : World App) : RequestFn App :=
  fun cli c app =>
    send W cli
      { method := .GET, path := c.hawkbitURI.getPath, headers := c.defaultHeaders,
        body := "", contentType := "" } app

/-- The index `path.length() - 1` of `formatFeedbackPath` (source line 165),
computed as the 64-bit unsigned `size_t` computes it. -/
def lastIndex (length : Nat) : Nat :=
  (length + 2 ^ 64 - 1) % 2 ^ 64

/-! ## Artifact transfer (source lines 269-303) -/

/-- The value of `httplib::Error::Canceled` once cast to `int`. -/
def Error_Canceled : Int := 7

/-- What the transport has to offer for one streamed GET: a failure before the
response head arrives (`error`, Success if the head arrived), the status of
the head, the body chunks in the order they would be delivered, and a failure
after those chunks (`bodyError`, Success if the body ends well). -/
structure StreamReply where
  error : Int
  status : Int
  chunks : List String
  bodyError : Int
  deriving DecidableEq, Repr

/-- The outside as the artifact transfer meets it: the transport of a
streamed GET, the statuses for which the HTTP library reads no body and calls
neither callback (`bodyless`; which ones depends on the version of the
library, 204 in recent ones), the opening of the destination file
(`std::ofstream file(path)`) and a write to it, which answers whether the
stream is still good (`!file.bad()`). -/
structure Streaming (App : Type) where
  transportStream : HttpClient → HttpRequest → App → StreamReply × App
  bodyless : Int → Bool
  openFile : String → App → App
  fileWrite : String → String → App → Bool × App

/-- Delivery of the body chunks to a content receiver, in order, until one
call answers false.  The result is the log of the calls made, whether all
chunks were accepted, and the outside left. -/
def deliver {App : Type} (contentReceiver : String → App → Bool × App)
    (logAs : String → WireEvent) : List String → App → List WireEvent × Bool × App
  | [], app => ([], true, app)
  | data :: rest, app =>
    if (contentReceiver data app).1 then
      (logAs data :: (deliver contentReceiver logAs rest (contentReceiver data app).2).1,
        (deliver contentReceiver logAs rest (contentReceiver data app).2).2)
    else
      ([logAs data], false, (contentReceiver data app).2)

/-- Modelled from the spec: the call
`cli.Get(path, headers, response_handler, content_receiver)` of the HTTP
library, which is not part of the repository.  Unless the status is one the
library treats as bodyless, the response handler runs once the response head
has arrived and before any body chunk is delivered; an exception it throws
leaves the call; the content receiver then gets the chunks in order; a
callback that answers false cancels the call. -/
def streamGet {App : Type} (D : Streaming App) (cli : HttpClient) (req : HttpRequest)
    (responseHandler : Int → Except Exn Bool)
    (contentReceiver : String → App → Bool × App) (logAs : String → WireEvent) (app : App) :
    Attempt App :=
  let reply := (D.transportStream cli req app).1
  let app1 := (D.transportStream cli req app).2
  if reply.error ≠ Error_Success then
    { emitted := [WireEvent.http req]
      outcome := .ok { error := reply.error, status := reply.status, body := "" }
      app := app1 }
  else if D.bodyless reply.status then
    { emitted := [WireEvent.http req]
      outcome := .ok { error := Error_Success, status := reply.status, body := "" }
      app := app1 }
  else
    match responseHandler reply.status with
    | .error e => { emitted := [WireEvent.http req], outcome := .error e, app := app1 }
    | .ok false =>
      { emitted := [WireEvent.http req]
        outcome := .ok { error := Error_Canceled, status := reply.status, body := "" }
        app := app1 }
    | .ok true =>
      let d := deliver contentReceiver logAs reply.chunks app1
      { emitted := WireEvent.http req :: d.1
        outcome :=
          .ok { error :=
                  if d.2.1 = false then Error_Canceled
                  else reply.bodyError
                status := reply.status
                body := "" }
        app := d.2.2 }

/-- The response handler of both downloads (source lines 273-276 and 296-299):
`checkHttpCode(r.status, HTTP_OK); return true;`. -/
def checkStatusHandler (status : Int) : Except Exn Bool :=
  match checkHttpCode status HTTP_OK with
  | .error e => .error e
  | .ok () => .ok true

/-- The lambda of `downloadTo` (source lines 271-282): a streamed GET whose
content receiver writes each chunk to the file and answers `!file.bad()`. -/
def downloadToRequest {App : Type} (D : Streaming App) (downloadURI : URI) (path : String) :
    RequestFn App :=
  fun cli c app =>
    streamGet D cli
      { method := .GET, path := downloadURI.getPath, headers := c.defaultHeaders,
        body := "", contentType := "" }
      checkStatusHandler
      (fun data a => D.fileWrite path data a)
      WireEvent.fileWrite app

/-- Body of `downloadTo` (source lines 269-284): the file is opened first, then
the request goes through `retryHandler`. -/
def downloadTo {App : Type} (X : Externals) (W : World App) (D : Streaming App)
    (downloadURI : URI) (path : String) (s : Machine App) : Outcome App Unit :=
  match retryHandler X W downloadURI (downloadToRequest D downloadURI path)
      { s with app := D.openFile path s.app } with
  | (.error e, s1) => (.error e, s1)
  | (.ok _, s1) => (.ok (), s1)

/-- Body of `getBody` (source lines 286-290). -/
def getBody {App : Type} (X : Externals) (W : World App) (downloadURI : URI)
    (s : Machine App) : Outcome App String :=
  match retryHandler X W downloadURI
      (fun cli c app =>
        send W cli
          { method := .GET, path := downloadURI.getPath, headers := c.defaultHeaders,
            body := "", contentType := "" } app) s with
  | (.error e, s1) => (.error e, s1)
  | (.ok resp, s1) => (.ok resp.body, s1)

/-- The lambda of `downloadWithReceiver` (source lines 294-301): a streamed GET
whose content receiver is the application's function `func`. -/
def downloadWithReceiverRequest {App : Type} (D : Streaming App) (downloadURI : URI)
    (func : String → App → Bool × App) : RequestFn App :=
  fun cli c app =>
    streamGet D cli
      { method := .GET, path := downloadURI.getPath, headers := c.defaultHeaders,
        body := "", contentType := "" }
      checkStatusHandler func WireEvent.receive app

/-- Body of `downloadWithReceiver` (source lines 292-303). -/
def downloadWithReceiver {App : Type} (X : Externals) (W : World App) (D : Streaming App)
    (downloadURI : URI) (func : String → App → Bool × App) (s : Machine App) :
    Outcome App Unit :=
  match retryHandler X W downloadURI (downloadWithReceiverRequest D downloadURI func) s with
  | (.error e, s1) => (.error e, s1)
  | (.ok _, s1) => (.ok (), s1)

/-! ## Reading the observation log -/

/-- Number of times a request function was called, as logged. -/
def invocations (t : List Event) : Nat :=
  t.countP (fun e => match e with
    | Event.invoke _ => true
    | _ => false)

/-- Number of times the auth-recovery callback was called, as logged. -/
def authCallbacks (t : List Event) : Nat :=
  t.countP (fun e => match e with
    | Event.authError => true
    | _ => false)

/-- The log entries of one run of a request function through `wrappedRequest`
from state `s`: the call itself, then what the function did on the wire. -/
def attemptLog {App : Type} (reqUri : URI) (func : RequestFn App) (s : Machine App) :
    List Event :=
  Event.invoke (newHttpClient s.client reqUri) ::
    (func (newHttpClient s.client reqUri) s.client s.app).emitted.map Event.wire

/-- Whether a text contains two slashes in a row. -/
def hasDoubleSlash : List Char → Bool
  | a :: b :: t => (a == '/' && b == '/') || hasDoubleSlash (b :: t)
  | _ => false

/-! ## Sample worlds used to exercise the theorems -/

/-- A client with an endpoint and no credentials. -/
def sampleClient : ClientState :=
  { hawkbitURI := { scheme := "https", authority := "hb.example", path := "/t/controller/v1/dev" }
    defaultHeaders := []
    mTLSKeypair := { isSet := false, crt := "", key := "" }
    serverCertificateVerify := true
    ignoreSleep := false
    currentSleepTime := 0
    defaultSleepTime := 1000 }

/-- A machine whose outside is a counter of the requests answered so far. -/
def sampleMachine : Machine Nat :=
  { client := sampleClient, app := 0, trace := [] }

/-- A request function that is answered 401 on its first run and 200 after. -/
def flakyAuth : RequestFn Nat := fun _ _ n =>
  { emitted := []
    outcome := .ok { error := 0, status := if n = 0 then 401 else 200, body := "ok" }
    app := n + 1 }

/-- A request function that is always answered with the given result. -/
def constFn (r : HttpResult) : RequestFn Nat := fun _ _ n =>
  { emitted := [], outcome := .ok r, app := n + 1 }

/-- Library functions for the sample worlds. -/
def sampleExternals : Externals :=
  { uriFromString := fun e => { scheme := "https", authority := e, path := "/" }
    hawkbitEndpointFrom := fun h c t => h ++ "/" ++ t ++ "/controller/v1/" ++ c
    finishedToString := fun f => match f with
      | .SUCCESS => "success"
      | .FAILURE => "failure"
      | .NONE => "none"
    executionToString := fun e => match e with
      | .CLOSED => "closed"
      | .PROCEEDING => "proceeding"
      | .CANCELED => "canceled"
      | .SCHEDULED => "scheduled"
      | .REJECTED => "rejected"
      | .RESUMED => "resumed"
    modeToString := fun m => match m with
      | .MERGE => "merge"
      | .REPLACE => "replace"
      | .REMOVE => "remove"
    accept := fun _ => "json"
    pollingDataFromString := fun _ => .error (.other "malformed")
    cancelActionFromString := fun b => .ok { getId := 7, content := b }
    deploymentBaseFrom := fun b => .ok { getId := 9, content := b } }

/-- A handler that has nothing to report. -/
def idleHandler : Handler Nat :=
  { onConfigRequest := fun n => ({ getData := [], getMode := .MERGE, isIgnoredSleep := false }, n)
    onNoActions := fun n => n
    onCancelAction := fun _ n => (none, n)
    onDeploymentAction := fun _ m => (.ok none, m) }

/-- A world with an auth-recovery callback that installs a device token. -/
def worldWithCallback : World Nat :=
  { transport := fun _ _ n => ({ error := 0, status := 200, body := "" }, n + 1)
    authErrorHandler := some (fun n => ([RestoreOp.setDeviceToken "fresh"], n))
    handler := idleHandler }

/-- A world with no auth-recovery callback. -/
def worldNoCallback : World Nat :=
  { transport := fun _ _ n => ({ error := 0, status := 200, body := "" }, n + 1)
    authErrorHandler := none
    handler := idleHandler }

/-- A listener that leaves a mark on the outside: 100 for a successful
delivery, 1000 for an error. -/
def markingListener : DeliveryListener Nat :=
  { onSuccessfulDelivery := fun n => n + 100, onError := fun n => n + 1000 }

/-- The feedback the handlers of `rejectingWorld` return. -/
def sampleFeedback (listener : Option (DeliveryListener Nat)) : Response Nat :=
  { getFinished := .SUCCESS, getExecution := .CLOSED, getDetails := ["done"],
    isIgnoredSleep := true, getDeliveryListener := listener }

/-- A world whose server answers 500 to every POST and 200 to the rest, and
whose handlers return `sampleFeedback` with the given listener. -/
def rejectingWorld (listener : Option (DeliveryListener Nat)) : World Nat :=
  { transport := fun _ req n =>
      ({ error := 0, status := if req.method = Method.POST then 500 else 200, body := "action" },
        n + 1)
    authErrorHandler := none
    handler :=
      { onConfigRequest := fun n =>
          ({ getData := [], getMode := .MERGE, isIgnoredSleep := false }, n)
        onNoActions := fun n => n
        onCancelAction := fun _ n => (some (sampleFeedback listener), n)
        onDeploymentAction := fun _ m => (.ok (some (sampleFeedback listener)), m) } }

/-- A world whose server answers 200 to everything and whose application
answers every config request with `req`. -/
def configWorld (req : ConfigRequest) : World Nat :=
  { transport := fun _ _ n => ({ error := 0, status := 200, body := "" }, n + 1)
    authErrorHandler := none
    handler :=
      { onConfigRequest := fun n => (req, n)
        onNoActions := fun n => n
        onCancelAction := fun _ n => (none, n)
        onDeploymentAction := fun _ m => (.ok none, m) } }

/-- A config request with one pair of data that asks to skip the sleep. -/
def hardwareRevision : ConfigRequest :=
  { getData := [("hwRevision", "2")], getMode := .MERGE, isIgnoredSleep := true }

/-- A config request with no data that asks to skip the sleep. -/
def nothingToReport : ConfigRequest :=
  { getData := [], getMode := .MERGE, isIgnoredSleep := true }

/-- A follow-up URI for the sample worlds. -/
def sampleFollowURI : URI :=
  { scheme := "https", authority := "hb.example", path := "/t/controller/v1/dev/cancelAction/7" }

/-- The sample machine after the GET of a cancel or deployment sub-protocol. -/
def afterGet (W : World Nat) : Machine Nat :=
  (retryHandler sampleExternals W sampleFollowURI (getFollowUp W sampleFollowURI)
    sampleMachine).2

/-- The sample machine when the feedback POST starts: `afterGet` with the
handler call `ev` logged (the sample handlers leave the outside as it is). -/
def beforePost (W : World Nat) (ev : Event) : Machine Nat :=
  { afterGet W with trace := (afterGet W).trace ++ [ev] }

/-- The sample machine after the feedback POST. -/
def afterPost (W : World Nat) (ev : Event) : Machine Nat :=
  (retryHandler sampleExternals W sampleFollowURI (postFeedback W sampleFollowURI "json")
    (beforePost W ev)).2

/-- Library functions whose poll decoder always finds a config-data directive
with a suggested sleep of 5000 ms. -/
def configPollExternals : Externals :=
  { sampleExternals with
    pollingDataFromString := fun _ =>
      .ok { getSleepTime := 5000, getFollowURI := sampleFollowURI,
            getAction := .GET_CONFIG_DATA } }

/-- A world whose transport fails (error code 4) on every POST and answers
200 to the rest, and whose handlers return `sampleFeedback` with the given
listener. -/
def brokenPostWorld (listener : Option (DeliveryListener Nat)) : World Nat :=
  { transport := fun _ req n =>
      ({ error := if req.method = Method.POST then 4 else 0, status := 200, body := "action" },
        n + 1)
    authErrorHandler := none
    handler :=
      { onConfigRequest := fun n =>
          ({ getData := [], getMode := .MERGE, isIgnoredSleep := false }, n)
        onNoActions := fun n => n
        onCancelAction := fun _ n => (some (sampleFeedback listener), n)
        onDeploymentAction := fun _ m => (.ok (some (sampleFeedback listener)), m) } }

/-- A client whose endpoint is not set. -/
def unsetClient : ClientState :=
  { sampleClient with hawkbitURI := { scheme := "", authority := "", path := "" } }

/-- A machine whose client has no endpoint. -/
def unsetMachine : Machine Nat :=
  { client := unsetClient, app := 0, trace := [] }

/-- A world whose auth-recovery callback sets the endpoint and a device
token. -/
def provisioningWorld : World Nat :=
  { transport := fun _ _ n => ({ error := 0, status := 200, body := "" }, n + 1)
    authErrorHandler :=
      some (fun n => ([RestoreOp.setEndpoint "hb.example", RestoreOp.setDeviceToken "fresh"], n))
    handler := idleHandler }

/-- Library functions whose poll decoder always finds the directive "no
action" with no suggested sleep time. -/
def nonePollExternals : Externals :=
  { sampleExternals with
    pollingDataFromString := fun _ =>
      .ok { getSleepTime := 0, getFollowURI := { scheme := "", authority := "", path := "" },
            getAction := .NONE } }

/-- A world whose server answers 401 to the first request and 200 after, and
whose auth-recovery callback moves the endpoint to another host and installs
a device token. -/
def rehomingWorld : World Nat :=
  { transport := fun _ _ n =>
      ({ error := 0, status := if n = 0 then 401 else 200, body := "" }, n + 1)
    authErrorHandler :=
      some (fun n =>
        ([RestoreOp.setEndpoint "other.example", RestoreOp.setDeviceToken "fresh"], n))
    handler := idleHandler }

/-- An artifact server that answers 404 when the outside counter is 0 and 200
otherwise, each time with a body of two chunks, and a file system in which
every write succeeds and adds 10 to the counter. -/
def artifactServer : Streaming Nat :=
  { transportStream := fun _ _ n =>
      ({ error := 0, status := if n = 0 then 404 else 200, chunks := ["ab", "cd"],
         bodyError := 0 }, n + 1)
    bodyless := fun status => status == 204
    openFile := fun _ n => n
    fileWrite := fun _ _ n => (true, n + 10) }

/-- A download URI for the sample worlds. -/
def sampleDownloadURI : URI :=
  { scheme := "https", authority := "hb.example", path := "/artifacts/fw.bin" }

/-! ## Theorems: request executor and retry wrapper -/

/-- The state `wrappedRequest` leaves, whatever its outcome: the client is
untouched, the outside is the one the request function left, and the log has
grown by one call of the request function. -/
theorem wrappedRequest_state {App : Type} (reqUri : URI) (func : RequestFn App)
    (s : Machine App) :
    (wrappedRequest reqUri func s).2 =
      { client := s.client
        app := (func (newHttpClient s.client reqUri) s.client s.app).app
        trace := s.trace ++ attemptLog reqUri func s } := by
  unfold wrappedRequest attemptLog
  simp only []
  split
  · rfl
  · split
    · rfl
    · split <;> rfl

/-- What a request function does on the wire is never logged as a call of a
request function. -/
theorem invocations_wire (l : List WireEvent) : invocations (l.map Event.wire) = 0 := by
  induction l with
  | nil => rfl
  | cons a t ih => simp [invocations, List.countP_cons]

/-- What a request function does on the wire is never logged as a call of the
auth-recovery callback. -/
theorem authCallbacks_wire (l : List WireEvent) : authCallbacks (l.map Event.wire) = 0 := by
  induction l with
  | nil => rfl
  | cons a t ih => simp [authCallbacks, List.countP_cons]

/-- One run through `wrappedRequest` logs one call of the request function. -/
theorem invocations_attemptLog {App : Type} (reqUri : URI) (func : RequestFn App)
    (s : Machine App) : invocations (attemptLog reqUri func s) = 1 := by
  have h := invocations_wire (func (newHttpClient s.client reqUri) s.client s.app).emitted
  unfold invocations at h
  simp [attemptLog, invocations, List.countP_cons, h]

/-- One run through `wrappedRequest` logs no call of the callback. -/
theorem authCallbacks_attemptLog {App : Type} (reqUri : URI) (func : RequestFn App)
    (s : Machine App) : authCallbacks (attemptLog reqUri func s) = 0 := by
  have h := authCallbacks_wire (func (newHttpClient s.client reqUri) s.client s.app).emitted
  unfold authCallbacks at h
  simp [attemptLog, authCallbacks, List.countP_cons, h]

/-- C1: with an auth-recovery callback registered, when the first attempt
fails as unauthorized the result of `retryHandler` is exactly the outcome of
a second attempt made after the callback ran (response or failure, a second
unauthorized included), and the log grows by: first attempt, one callback,
second attempt, that is two calls of the request function and one call of
the callback, nothing more. -/
theorem retryHandler_unauthorized_then_retry {App : Type} (X : Externals) (W : World App)
    (reqUri : URI) (func : RequestFn App) (s s1 : Machine App)
    (cb : App → List RestoreOp × App) (hcb : W.authErrorHandler = some cb)
    (h1 : wrappedRequest reqUri func s = (.error .unauthorized_exception, s1)) :
    retryHandler X W reqUri func s = wrappedRequest reqUri func (onAuthError X cb s1) ∧
    (∀ e s2, wrappedRequest reqUri func (onAuthError X cb s1) = (.error e, s2) →
      retryHandler X W reqUri func s = (.error e, s2)) ∧
    (∀ r s2, wrappedRequest reqUri func (onAuthError X cb s1) = (.ok r, s2) →
      retryHandler X W reqUri func s = (.ok r, s2)) ∧
    (retryHandler X W reqUri func s).2.trace =
      s.trace ++ (attemptLog reqUri func s ++ [Event.authError] ++
        attemptLog reqUri func (onAuthError X cb s1)) ∧
    invocations (attemptLog reqUri func s ++ [Event.authError] ++
        attemptLog reqUri func (onAuthError X cb s1)) = 2 ∧
    authCallbacks (attemptLog reqUri func s ++ [Event.authError] ++
        attemptLog reqUri func (onAuthError X cb s1)) = 1 := by
  have hr : retryHandler X W reqUri func s =
      wrappedRequest reqUri func (onAuthError X cb s1) := by
    unfold retryHandler
    rw [h1]
    simp [hcb]
  have hs1 : s1.trace = s.trace ++ attemptLog reqUri func s := by
    have := wrappedRequest_state reqUri func s
    rw [h1] at this
    simp only at this
    rw [this]
  refine ⟨hr, ?_, ?_, ?_, ?_, ?_⟩
  · intro e s2 h2
    rw [hr, h2]
  · intro r s2 h2
    rw [hr, h2]
  · rw [hr, wrappedRequest_state]
    simp [onAuthError, hs1]
  · have a := invocations_attemptLog reqUri func s
    have b := invocations_attemptLog reqUri func (onAuthError X cb s1)
    unfold invocations at a b ⊢
    simp [List.countP_append, a, b]
  · have a := authCallbacks_attemptLog reqUri func s
    have b := authCallbacks_attemptLog reqUri func (onAuthError X cb s1)
    unfold authCallbacks at a b ⊢
    simp [List.countP_append, a, b]

/-- When the request function returned `r` and `wrappedRequest` failed as
unauthorized, the transport succeeded and the status was 401. -/
theorem wrappedRequest_unauthorized_of_ok {App : Type} (reqUri : URI) (func : RequestFn App)
    (s : Machine App) (r : HttpResult)
    (h : (func (newHttpClient s.client reqUri) s.client s.app).outcome = .ok r)
    (hu : (wrappedRequest reqUri func s).1 = .error .unauthorized_exception) :
    r.error = Error_Success ∧ r.status = HTTP_UNAUTHORIZED := by
  by_cases he : r.error = Error_Success
  · by_cases hs : r.status = HTTP_UNAUTHORIZED
    · exact ⟨he, hs⟩
    · by_cases hs2 : r.status = HTTP_OK
      · have hne : ¬ (HTTP_OK = HTTP_UNAUTHORIZED) := by decide
        simp [wrappedRequest, h, he, hs2, checkHttpCode, hne] at hu
      · simp [wrappedRequest, h, he, hs, hs2, checkHttpCode] at hu
  · simp [wrappedRequest, h, he] at hu

/-- When the first attempt does not fail as unauthorized, `retryHandler` is
that attempt. -/
theorem retryHandler_of_not_unauthorized {App : Type} (X : Externals) (W : World App)
    (reqUri : URI) (func : RequestFn App) (s : Machine App)
    (h : (wrappedRequest reqUri func s).1 ≠ .error .unauthorized_exception) :
    retryHandler X W reqUri func s = wrappedRequest reqUri func s := by
  unfold retryHandler
  split
  · rename_i s1 heq
    rw [heq] at h
    exact absurd rfl h
  · rfl

/-- C2: when the first attempt succeeds, or fails with a transport error, or
with a status mismatch, or as unauthorized while no callback is registered,
`retryHandler` returns the first attempt unchanged (same value or same error
with the same payload, same state), and the log grows by one call of the
request function and no call of the callback. -/
theorem retryHandler_single_attempt {App : Type} (X : Externals) (W : World App)
    (reqUri : URI) (func : RequestFn App) (s : Machine App)
    (h : (∃ r, (wrappedRequest reqUri func s).1 = .ok r) ∨
         (∃ c, (wrappedRequest reqUri func s).1 = .error (.http_lib_error c)) ∨
         (∃ p e, (wrappedRequest reqUri func s).1 =
            .error (.http_unexpected_code_exception p e)) ∨
         ((wrappedRequest reqUri func s).1 = .error .unauthorized_exception ∧
            W.authErrorHandler = none)) :
    retryHandler X W reqUri func s = wrappedRequest reqUri func s ∧
    (retryHandler X W reqUri func s).2.trace = s.trace ++ attemptLog reqUri func s ∧
    invocations (attemptLog reqUri func s) = 1 ∧
    authCallbacks (attemptLog reqUri func s) = 0 := by
  have hr : retryHandler X W reqUri func s = wrappedRequest reqUri func s := by
    unfold retryHandler
    rcases hw : wrappedRequest reqUri func s with ⟨o, s1⟩
    rw [hw] at h
    rcases h with ⟨r, h⟩ | ⟨c, h⟩ | ⟨p, e, h⟩ | ⟨h, hn⟩
    all_goals simp only at h
    all_goals subst h
    all_goals simp
    simp [hn]
  refine ⟨hr, ?_, invocations_attemptLog reqUri func s, authCallbacks_attemptLog reqUri func s⟩
  rw [hr, wrappedRequest_state]

/-- C3: `wrappedRequest` sorts the transport result `r` that the request
function returned into exactly one of four outcomes, in this order: a
transport error code other than Success gives `http_lib_error` with that code,
whatever the status; else status 401 gives `unauthorized_exception` (and
`checkHttpCode` does so for every expected code); else a status other than 200
gives `http_unexpected_code_exception (status, 200)`; else `r` is returned
unchanged.  It returns normally iff the transport succeeded with status 200. -/
theorem wrappedRequest_classifies {App : Type} (reqUri : URI) (func : RequestFn App)
    (s : Machine App) (r : HttpResult)
    (h : (func (newHttpClient s.client reqUri) s.client s.app).outcome = .ok r) :
    (r.error ≠ Error_Success →
      (wrappedRequest reqUri func s).1 = .error (.http_lib_error r.error)) ∧
    (r.error = Error_Success → r.status = 401 →
      (wrappedRequest reqUri func s).1 = .error .unauthorized_exception) ∧
    (r.error = Error_Success → r.status ≠ 401 → r.status ≠ 200 →
      (wrappedRequest reqUri func s).1 =
        .error (.http_unexpected_code_exception r.status 200)) ∧
    (r.error = Error_Success → r.status = 200 →
      (wrappedRequest reqUri func s).1 = .ok r) ∧
    ((∃ x, (wrappedRequest reqUri func s).1 = .ok x) ↔
      (r.error = Error_Success ∧ r.status = 200)) ∧
    (∀ expected : Int, checkHttpCode 401 expected = .error .unauthorized_exception) := by
  refine ⟨?_, ?_, ?_, ?_, ?_, ?_⟩
  · intro he
    simp [wrappedRequest, h, he]
  · intro he hs
    simp [wrappedRequest, h, he, hs, checkHttpCode, HTTP_UNAUTHORIZED]
  · intro he hs1 hs2
    simp [wrappedRequest, h, he, hs1, hs2, checkHttpCode, HTTP_UNAUTHORIZED, HTTP_OK]
  · intro he hs
    simp [wrappedRequest, h, he, hs, checkHttpCode, HTTP_UNAUTHORIZED, HTTP_OK]
  · by_cases he : r.error = Error_Success
    · by_cases hs1 : r.status = 401
      · simp [wrappedRequest, h, he, hs1, checkHttpCode, HTTP_UNAUTHORIZED]
      · by_cases hs2 : r.status = 200
        · simp [wrappedRequest, h, he, hs2, checkHttpCode, HTTP_UNAUTHORIZED, HTTP_OK]
        · simp [wrappedRequest, h, he, hs1, hs2, checkHttpCode, HTTP_UNAUTHORIZED, HTTP_OK]
    · simp [wrappedRequest, h, he]
  · intro expected
    simp [checkHttpCode, HTTP_UNAUTHORIZED]

/-! ## Theorems: feedback delivery in the cancel and deployment sub-protocols -/

/-- C4: in `followCancelAction` and in `followDeploymentBase`, when the
feedback POST through `retryHandler` fails with a status mismatch `(p, e)`
in state `s3`: with a delivery listener `l` on the feedback the sub-protocol
returns normally, the log grows by exactly one `onError` (no
`onSuccessfulDelivery`), the outside is the one `l.onError` leaves, and
`ignoreSleep` is the feedback's `isIgnoredSleep`; with no listener the same
error `(p, e)` leaves the sub-protocol in state `s3`. -/
theorem feedback_status_mismatch {App : Type} (X : Externals) (W : World App)
    (followURI : URI) (s s1 s2 s3 : Machine App) (resp : HttpResult)
    (cliResp : Response App) (document : Members) (p e : Int)
    (hget : retryHandler X W followURI (getFollowUp W followURI) s = (.ok resp, s1))
    (hpost : retryHandler X W followURI
        (postFeedback W followURI (X.accept (Json.obj document))) s2 =
          (.error (.http_unexpected_code_exception p e), s3)) :
    (∀ cancelAction : CancelAction,
      X.cancelActionFromString resp.body = .ok cancelAction →
      W.handler.onCancelAction cancelAction s1.app = (some cliResp, s2.app) →
      s2.client = s1.client →
      s2.trace = s1.trace ++ [Event.cancelAction cancelAction.getId] →
      fillResponseDocument X (some cliResp) [] cancelAction.getId = .ok document →
      (∀ l, cliResp.getDeliveryListener = some l →
        followCancelAction X W followURI s =
          (.ok (),
            { client := { s3.client with ignoreSleep := cliResp.isIgnoredSleep }
              app := l.onError s3.app
              trace := s3.trace ++ [Event.deliveryError] })) ∧
      (cliResp.getDeliveryListener = none →
        followCancelAction X W followURI s =
          (.error (.http_unexpected_code_exception p e), s3))) ∧
    (∀ deploymentBase : DeploymentBase,
      X.deploymentBaseFrom resp.body = .ok deploymentBase →
      W.handler.onDeploymentAction deploymentBase
        { s1 with trace := s1.trace ++ [Event.deploymentAction deploymentBase.getId] } =
          (.ok (some cliResp), s2) →
      fillResponseDocument X (some cliResp) [] deploymentBase.getId = .ok document →
      (∀ l, cliResp.getDeliveryListener = some l →
        followDeploymentBase X W followURI s =
          (.ok (),
            { client := { s3.client with ignoreSleep := cliResp.isIgnoredSleep }
              app := l.onError s3.app
              trace := s3.trace ++ [Event.deliveryError] })) ∧
      (cliResp.getDeliveryListener = none →
        followDeploymentBase X W followURI s =
          (.error (.http_unexpected_code_exception p e), s3))) := by
  constructor
  · intro cancelAction hdec hh hc ht hdoc
    have hs2 : ({ s1 with app := (W.handler.onCancelAction cancelAction s1.app).2
                          trace := s1.trace ++ [Event.cancelAction cancelAction.getId] } :
        Machine App) = s2 := by
      rw [hh, ← hc, ← ht]
    have h1 : (W.handler.onCancelAction cancelAction s1.app).1 = some cliResp := by rw [hh]
    constructor
    · intro l hl
      unfold followCancelAction
      simp only [hget, hdec, h1, hdoc, hs2, hpost, hl]
    · intro hl
      unfold followCancelAction
      simp only [hget, hdec, h1, hdoc, hs2, hpost, hl]
  · intro deploymentBase hdec hh hdoc
    constructor
    · intro l hl
      unfold followDeploymentBase
      simp only [hget, hdec, hh, hdoc, hpost, hl]
    · intro hl
      unfold followDeploymentBase
      simp only [hget, hdec, hh, hdoc, hpost, hl]

/-! ## Theorems: credentials -/

/-- After `erase(key)` no value is left under that key. -/
theorem Headers.values_erase (h : Headers) (key : String) :
    Headers.values (Headers.erase h key) key = [] := by
  simp [Headers.values, Headers.erase, List.filter_filter]

/-- The header name is its own key. -/
theorem sameKey_authorization :
    Headers.sameKey AUTHORIZATION_HEADER AUTHORIZATION_HEADER = true := by
  simp [Headers.sameKey]

/-- After `insert` the values under the key are the old ones followed by the
new one. -/
theorem Headers.values_insert_authorization (h : Headers) (v : String) :
    Headers.values (Headers.insert h (AUTHORIZATION_HEADER, v)) AUTHORIZATION_HEADER =
      Headers.values h AUTHORIZATION_HEADER ++ [v] := by
  simp [Headers.values, Headers.insert, List.filter_append, sameKey_authorization]

/-- Every call on the restore handle leaves a client in which the keypair is
not set or no Authorization header is present, provided it found one. -/
theorem RestoreOp.apply_exclusive (X : Externals) (c : ClientState) (op : RestoreOp)
    (h : c.mTLSKeypair.isSet = false ∨ Headers.values c.defaultHeaders AUTHORIZATION_HEADER = []) :
    (RestoreOp.apply X c op).mTLSKeypair.isSet = false ∨
      Headers.values (RestoreOp.apply X c op).defaultHeaders AUTHORIZATION_HEADER = [] := by
  cases op with
  | setTLS crt key =>
    right
    simp [RestoreOp.apply, ddi.setTLS, Headers.values_erase]
  | setEndpoint endpoint => simpa [RestoreOp.apply, ddi.setEndpoint] using h
  | setDeviceToken token =>
    left
    simp [RestoreOp.apply, ddi.setDeviceToken]
  | setGatewayToken token =>
    left
    simp [RestoreOp.apply, ddi.setGatewayToken]
  | setEndpointFrom a b d =>
    simpa [RestoreOp.apply, ddi.setEndpointFrom, ddi.setEndpoint] using h

/-- The same for any sequence of calls. -/
theorem RestoreOp.foldl_exclusive (X : Externals) (ops : List RestoreOp) (c : ClientState)
    (h : c.mTLSKeypair.isSet = false ∨ Headers.values c.defaultHeaders AUTHORIZATION_HEADER = []) :
    (ops.foldl (RestoreOp.apply X) c).mTLSKeypair.isSet = false ∨
      Headers.values (ops.foldl (RestoreOp.apply X) c).defaultHeaders AUTHORIZATION_HEADER = [] := by
  induction ops generalizing c with
  | nil => simpa using h
  | cons op t ih =>
    rw [List.foldl_cons]
    exact ih _ (RestoreOp.apply_exclusive X c op h)

/-- C5: from a client with no keypair (and so from one with no keypair and no
Authorization header), after any finite sequence of `setTLS`,
`setDeviceToken`, `setGatewayToken` and `setEndpoint` calls it is never the
case that the keypair is set and an Authorization header is present.  After
`setDeviceToken` or `setGatewayToken` the keypair is unset with empty
certificate and key; after `setTLS` no Authorization entry remains, whatever
was there before. -/
theorem credential_mutual_exclusion (X : Externals) (c0 : ClientState)
    (hk : c0.mTLSKeypair.isSet = false) (ops : List RestoreOp) :
    ¬ ((ops.foldl (RestoreOp.apply X) c0).mTLSKeypair.isSet = true ∧
        Headers.values (ops.foldl (RestoreOp.apply X) c0).defaultHeaders
          AUTHORIZATION_HEADER ≠ []) ∧
    (∀ (c : ClientState) (token : String),
      (setDeviceToken c token).mTLSKeypair = { isSet := false, crt := "", key := "" } ∧
      (setGatewayToken c token).mTLSKeypair = { isSet := false, crt := "", key := "" }) ∧
    (∀ (c : ClientState) (crt key : String),
      (setTLS c crt key).mTLSKeypair = { isSet := true, crt := crt, key := key } ∧
      Headers.values (setTLS c crt key).defaultHeaders AUTHORIZATION_HEADER = []) := by
  refine ⟨?_, ?_, ?_⟩
  · rintro ⟨h1, h2⟩
    rcases RestoreOp.foldl_exclusive X ops c0 (Or.inl hk) with h | h
    · rw [h] at h1
      exact Bool.noConfusion h1
    · exact h2 h
  · intro c token
    exact ⟨rfl, rfl⟩
  · intro c crt key
    exact ⟨rfl, Headers.values_erase _ _⟩

/-- C6 (the code at the failing input): a second `setDeviceToken`, and a
`setGatewayToken` after a `setDeviceToken`, leave two Authorization values in
the default headers, the old one first; the earlier token is not replaced. -/
theorem setToken_keeps_earlier_token :
    Headers.values (setDeviceToken (setDeviceToken sampleClient "old") "new").defaultHeaders
        AUTHORIZATION_HEADER = ["TargetToken old", "TargetToken new"] ∧
    Headers.values (setGatewayToken (setDeviceToken sampleClient "old") "new").defaultHeaders
        AUTHORIZATION_HEADER = ["TargetToken old", "GatewayToken new"] := by
  constructor <;> decide

/-! ## Theorems: feedback path and feedback document -/

/-- Unfolding of `hasDoubleSlash` on a text of two characters or more. -/
theorem hasDoubleSlash_cons_cons (a b : Char) (t : List Char) :
    hasDoubleSlash (a :: b :: t) = ((a == '/' && b == '/') || hasDoubleSlash (b :: t)) :=
  rfl

/-- Appending a text that starts with a character other than a slash and has
no double slash of its own adds no double slash. -/
theorem hasDoubleSlash_append_cons (c : Char) (r : List Char) (hc : c ≠ '/')
    (hr : hasDoubleSlash (c :: r) = false) (l : List Char) :
    hasDoubleSlash (l ++ c :: r) = hasDoubleSlash l := by
  induction l with
  | nil => simpa [hasDoubleSlash] using hr
  | cons a t ih =>
    cases t with
    | nil => simp [hasDoubleSlash, hc, hr]
    | cons b t2 =>
      simp only [List.cons_append] at ih ⊢
      rw [hasDoubleSlash_cons_cons, ih, hasDoubleSlash_cons_cons]

/-- Appending one slash to a text that does not end with a slash adds no
double slash. -/
theorem hasDoubleSlash_append_slash (l : List Char) (h : l.getLast? ≠ some '/') :
    hasDoubleSlash (l ++ ['/']) = hasDoubleSlash l := by
  induction l with
  | nil => rfl
  | cons a t ih =>
    cases t with
    | nil =>
      have ha : a ≠ '/' := by simpa using h
      simp [hasDoubleSlash, ha]
    | cons b t2 =>
      have hb : (b :: t2).getLast? ≠ some '/' := by
        simpa [List.getLast?_cons_cons] using h
      simp only [List.cons_append] at ih ⊢
      rw [hasDoubleSlash_cons_cons, ih hb, hasDoubleSlash_cons_cons]

/-- Adding the separator and then the word is adding `/feedback`. -/
theorem append_slash_feedback (p : String) : p ++ "/" ++ "feedback" = p ++ "/feedback" := by
  apply String.ext
  simp [String.data_append]

/-- On a non-empty path `formatFeedbackPath` has a result: the path, a slash
unless the path ends with one, and the word `feedback`. -/
theorem formatFeedbackPath_eq (uri : URI) (c : Char)
    (hc : uri.getPath.data.getLast? = some c) :
    formatFeedbackPath uri =
      some (if c = '/' then uri.getPath ++ "feedback" else uri.getPath ++ "/feedback") := by
  unfold formatFeedbackPath
  simp only [hc]
  by_cases h : c = '/'
  · simp [h]
  · simp [h, append_slash_feedback]

/-- C7: for a follow-up URI with a non-empty path `p`, `formatFeedbackPath`
returns `p ++ "feedback"` when `p` ends with a slash and `p ++ "/feedback"`
otherwise; so the result always ends in `/feedback`, a path with and without
one trailing slash give the same result (`/a/b` and `/a/b/` both give
`/a/b/feedback`), and the result has a double slash only if `p` has one. -/
theorem formatFeedbackPath_spec (uri : URI) (h : uri.getPath ≠ "") :
    (uri.getPath.data.getLast? = some '/' →
      formatFeedbackPath uri = some (uri.getPath ++ "feedback")) ∧
    (uri.getPath.data.getLast? ≠ some '/' →
      formatFeedbackPath uri = some (uri.getPath ++ "/feedback")) ∧
    (∃ q : String, formatFeedbackPath uri = some (q ++ "/feedback")) ∧
    (uri.getPath.data.getLast? ≠ some '/' →
      formatFeedbackPath { uri with path := uri.getPath ++ "/" } = formatFeedbackPath uri) ∧
    (∀ r : String, formatFeedbackPath uri = some r →
      hasDoubleSlash r.data = hasDoubleSlash uri.getPath.data) ∧
    formatFeedbackPath { scheme := "https", authority := "hb.example", path := "/a/b" } =
      some "/a/b/feedback" ∧
    formatFeedbackPath { scheme := "https", authority := "hb.example", path := "/a/b/" } =
      some "/a/b/feedback" := by
  have hne : uri.getPath.data ≠ [] := fun h0 => h (String.ext h0)
  obtain ⟨c, hc⟩ : ∃ c, uri.getPath.data.getLast? = some c := by
    cases hl : uri.getPath.data.getLast? with
    | none => exact absurd (List.getLast?_eq_none_iff.mp hl) hne
    | some c => exact ⟨c, rfl⟩
  have heq := formatFeedbackPath_eq uri c hc
  have hword : hasDoubleSlash ('f' :: "eedback".data) = false := by decide
  refine ⟨?_, ?_, ?_, ?_, ?_, by decide, by decide⟩
  · intro hs
    have : c = '/' := by rw [hc] at hs; exact Option.some.inj hs
    rw [heq, if_pos this]
  · intro hs
    have : c ≠ '/' := by
      intro hcs
      rw [hc, hcs] at hs
      exact hs rfl
    rw [heq, if_neg this]
  · by_cases hcs : c = '/'
    · subst hcs
      obtain ⟨ys, hys⟩ := List.getLast?_eq_some_iff.mp hc
      refine ⟨String.mk ys, ?_⟩
      rw [heq, if_pos rfl]
      congr 1
      apply String.ext
      simp [String.data_append, hys]
    · exact ⟨uri.getPath, by rw [heq, if_neg hcs]⟩
  · intro hs
    have hcs : c ≠ '/' := by
      intro hcs
      rw [hc, hcs] at hs
      exact hs rfl
    have hc2 : ({ uri with path := uri.getPath ++ "/" } : URI).getPath.data.getLast? =
        some '/' := by
      simp [URI.getPath, String.data_append]
    rw [formatFeedbackPath_eq _ _ hc2, heq, if_pos rfl, if_neg hcs]
    exact congrArg some (append_slash_feedback uri.getPath)
  · intro r hr
    rw [heq] at hr
    by_cases hcs : c = '/'
    · rw [if_pos hcs] at hr
      have hr2 : r = uri.getPath ++ "feedback" := (Option.some.inj hr).symm
      rw [hr2, String.data_append]
      exact hasDoubleSlash_append_cons 'f' "eedback".data (by decide) hword _
    · rw [if_neg hcs] at hr
      have hr2 : r = uri.getPath ++ "/feedback" := (Option.some.inj hr).symm
      have hl : uri.getPath.data.getLast? ≠ some '/' := by
        rw [hc]
        intro hx
        exact hcs (Option.some.inj hx)
      rw [hr2, String.data_append]
      have hsplit : uri.getPath.data ++ "/feedback".data =
          (uri.getPath.data ++ ['/']) ++ 'f' :: "eedback".data := by
        rw [List.append_assoc]
        rfl
      rw [hsplit, hasDoubleSlash_append_cons 'f' "eedback".data (by decide) hword,
        hasDoubleSlash_append_slash _ hl]

/-- A member list with no member of some name has no first member of that
name. -/
theorem Members.findMember_of_not_hasMember (m : Members) (name : String)
    (h : Members.hasMember m name = false) :
    List.find? (fun e : String × Json => e.1 == name) m = none := by
  rw [List.find?_eq_none]
  unfold Members.hasMember at h
  rw [List.any_eq_false] at h
  exact h

/-- The printer `to_string` gives the decimal digits of a number that is not
negative. -/
theorem to_string_nonneg (n : Int) (h : n ≥ 0) : to_string n = Nat.repr n.toNat := by
  cases n with
  | ofNat k => rfl
  | negSucc k => exact absurd h (by simp [Int.negSucc_lt_zero])

/-- C8: for a non-null response, any document with no `id` member yet (as at
every call) and any integer `actionId`, `fillResponseDocument` succeeds and
the resulting document has an `id` member iff `actionId >= 0`; when present
its value is the string of the decimal digits of `actionId`.  With 0 the
member is the string `0`, with -1 there is none. -/
theorem fillResponseDocument_id {App : Type} (X : Externals) (response : Response App)
    (document : Members) (actionId : Int)
    (hdoc : Members.hasMember document "id" = false) :
    ∃ d : Members,
      fillResponseDocument X (some response) document actionId = .ok d ∧
      (Members.hasMember d "id" = true ↔ actionId ≥ 0) ∧
      (actionId ≥ 0 → Members.findMember d "id" = some (Json.str (Nat.repr actionId.toNat))) ∧
      (actionId < 0 → Members.findMember d "id" = none) ∧
      (actionId = 0 → Members.findMember d "id" = some (Json.str "0")) ∧
      (actionId = -1 → Members.hasMember d "id" = false) := by
  have hfind := Members.findMember_of_not_hasMember document "id" hdoc
  have hany : List.any document (fun e => e.1 == "id") = false := hdoc
  by_cases h : actionId ≥ 0
  · have hres : fillResponseDocument X (some response) document actionId =
        .ok (document ++ [("status",
          Json.obj
            [("result", Json.obj [("finished", Json.str (X.finishedToString response.getFinished))]),
              ("execution", Json.str (X.executionToString response.getExecution)),
              ("details", Json.arr (response.getDetails.map Json.str))])] ++ [("id", Json.str (to_string actionId))]) := by
      simp [fillResponseDocument, h]
    refine ⟨_, hres, ?_, ?_, ?_, ?_, ?_⟩
    · simp [Members.hasMember, h]
    · intro _
      simp [Members.findMember, List.find?_append, hfind, to_string_nonneg actionId h]
    · intro hlt
      omega
    · intro h0
      subst h0
      simp [Members.findMember, List.find?_append, hfind]
      rfl
    · intro h1
      omega
  · have hres : fillResponseDocument X (some response) document actionId =
        .ok (document ++ [("status",
          Json.obj
            [("result", Json.obj [("finished", Json.str (X.finishedToString response.getFinished))]),
              ("execution", Json.str (X.executionToString response.getExecution)),
              ("details", Json.arr (response.getDetails.map Json.str))])]) := by
      simp [fillResponseDocument, h]
    refine ⟨_, hres, ?_, ?_, ?_, ?_, ?_⟩
    · simp [Members.hasMember, h, hany]
    · intro h2
      exact absurd h2 h
    · intro _
      simp [Members.findMember, List.find?_append, hfind]
    · intro h0
      omega
    · intro _
      simp [Members.hasMember, hany]

/-! ## Theorems: config-data sub-protocol -/

/-- C9: in `followConfigData`, when the application's config request has an
empty data mapping the log grows by the handler call only: no request
function is called and nothing goes on the wire.  When the mapping is not
empty and the first answer is not "unauthorized", the log grows by the
handler call, one call of the request function and exactly one request on
the wire: a PUT to the path of the follow-up URI, with the default headers,
content type `application/json` and as body the document with members
`data` (every key/value pair of the mapping, in order), `mode`
(`modeToString` of the request's mode) and `status` (result.finished the
SUCCESS string, execution the CLOSED string, details empty), and no `id`. -/
theorem followConfigData_request {App : Type} (X : Externals) (W : World App)
    (followURI : URI) (s : Machine App) (put : HttpRequest)
    (hput : put =
      { method := Method.PUT
        path := followURI.getPath
        headers := s.client.defaultHeaders
        body := X.accept (Json.obj
          [("data", Json.obj ((W.handler.onConfigRequest s.app).1.getData.map
              (fun kv => (kv.1, Json.str kv.2)))),
           ("mode", Json.str (X.modeToString (W.handler.onConfigRequest s.app).1.getMode)),
           ("status", Json.obj
              [("result", Json.obj [("finished", Json.str (X.finishedToString Finished.SUCCESS))]),
               ("execution", Json.str (X.executionToString Execution.CLOSED)),
               ("details", Json.arr [])])])
        contentType := "application/json" }) :
    ((W.handler.onConfigRequest s.app).1.getData = [] →
      followConfigData X W followURI s =
        (.ok (), { s with app := (W.handler.onConfigRequest s.app).2
                          trace := s.trace ++ [Event.configRequest] })) ∧
    ((W.handler.onConfigRequest s.app).1.getData ≠ [] →
      ¬ ((W.transport (newHttpClient s.client followURI) put
            (W.handler.onConfigRequest s.app).2).1.error = Error_Success ∧
         (W.transport (newHttpClient s.client followURI) put
            (W.handler.onConfigRequest s.app).2).1.status = HTTP_UNAUTHORIZED) →
      (followConfigData X W followURI s).2.trace =
        s.trace ++ [Event.configRequest, Event.invoke (newHttpClient s.client followURI),
          Event.wire (WireEvent.http put)]) := by
  constructor
  · intro hempty
    unfold followConfigData
    simp [hempty]
  · intro hne hauth
    have hne2 : (W.handler.onConfigRequest s.app).1.getData.isEmpty = false := by
      cases hd : (W.handler.onConfigRequest s.app).1.getData with
      | nil => exact absurd hd hne
      | cons a t => rfl
    have hfirst : (wrappedRequest followURI
        (fun cli c app => send W cli
          { method := Method.PUT, path := followURI.getPath, headers := c.defaultHeaders,
            body := put.body, contentType := "application/json" } app)
        { s with app := (W.handler.onConfigRequest s.app).2
                 trace := s.trace ++ [Event.configRequest] }).1 ≠
          .error .unauthorized_exception := by
      intro hcontra
      apply hauth
      have hu := wrappedRequest_unauthorized_of_ok followURI _ _ _ rfl hcontra
      subst hput
      exact hu
    have hretry := retryHandler_of_not_unauthorized X W followURI _ _ hfirst
    have hstate := wrappedRequest_state followURI
        (fun cli c app => send W cli
          { method := Method.PUT, path := followURI.getPath, headers := c.defaultHeaders,
            body := put.body, contentType := "application/json" } app)
        { s with app := (W.handler.onConfigRequest s.app).2
                 trace := s.trace ++ [Event.configRequest] }
    have hbody : put.body = X.accept (Json.obj
          [("data", Json.obj ((W.handler.onConfigRequest s.app).1.getData.map
              (fun kv => (kv.1, Json.str kv.2)))),
           ("mode", Json.str (X.modeToString (W.handler.onConfigRequest s.app).1.getMode)),
           ("status", Json.obj
              [("result", Json.obj [("finished", Json.str (X.finishedToString Finished.SUCCESS))]),
               ("execution", Json.str (X.executionToString Execution.CLOSED)),
               ("details", Json.arr [])])]) := by
      rw [hput]
    unfold followConfigData
    simp only [hne2, fillResponseDocument, ResponseBuilder.newInstance,
      ResponseBuilder.setFinished, ResponseBuilder.setExecution, ResponseBuilder.build]
    simp only [show ¬ ((-1 : Int) ≥ 0) by decide, if_false, List.nil_append, List.cons_append,
      List.map_nil, ← hbody, hretry]
    rcases hw : wrappedRequest followURI
        (fun cli c app => send W cli
          { method := Method.PUT, path := followURI.getPath, headers := c.defaultHeaders,
            body := put.body, contentType := "application/json" } app)
        { s with app := (W.handler.onConfigRequest s.app).2
                 trace := s.trace ++ [Event.configRequest] } with ⟨o, s1⟩
    rw [hw] at hstate
    simp only at hstate
    have htr : s1.trace = s.trace ++ [Event.configRequest,
        Event.invoke (newHttpClient s.client followURI), Event.wire (WireEvent.http put)] := by
      rw [hstate]
      subst hput
      simp [attemptLog, send]
    cases o with
    | error e => simpa using htr
    | ok r => simpa using htr

/-- C10 (as amended): when `followConfigData` completes normally and the data
mapping of the config request is not empty, `ignoreSleep` is the request's
`isIgnoredSleep`; when the mapping is empty, `ignoreSleep` is left as it
was. -/
theorem followConfigData_ignoreSleep {App : Type} (X : Externals) (W : World App)
    (followURI : URI) (s s' : Machine App)
    (h : followConfigData X W followURI s = (.ok (), s')) :
    ((W.handler.onConfigRequest s.app).1.getData ≠ [] →
      s'.client.ignoreSleep = (W.handler.onConfigRequest s.app).1.isIgnoredSleep) ∧
    ((W.handler.onConfigRequest s.app).1.getData = [] →
      s'.client.ignoreSleep = s.client.ignoreSleep) := by
  constructor
  · intro hne
    have hne2 : (W.handler.onConfigRequest s.app).1.getData.isEmpty = false := by
      cases hd : (W.handler.onConfigRequest s.app).1.getData with
      | nil => exact absurd hd hne
      | cons a t => rfl
    unfold followConfigData at h
    simp only [hne2, fillResponseDocument, Bool.false_eq_true, if_false] at h
    simp only [show ¬ ((-1 : Int) ≥ 0) by decide, if_false] at h
    split at h
    · simp at h
    · simp only [Prod.mk.injEq, true_and] at h
      rw [← h]
  · intro hempty
    unfold followConfigData at h
    simp only [hempty, List.isEmpty_nil, if_true, Prod.mk.injEq, true_and] at h
    rw [← h]

/-- Witness for C3: a first answer 401 over a successful transport. -/
theorem wrappedRequest_classifies_witness :
    (flakyAuth (newHttpClient sampleMachine.client sampleClient.hawkbitURI)
        sampleMachine.client sampleMachine.app).outcome =
      .ok { error := 0, status := 401, body := "ok" } ∧
    (wrappedRequest sampleClient.hawkbitURI flakyAuth sampleMachine).1 =
      .error .unauthorized_exception :=
  ⟨rfl, (wrappedRequest_classifies sampleClient.hawkbitURI flakyAuth sampleMachine
      { error := 0, status := 401, body := "ok" } rfl).2.1 rfl rfl⟩

/-- Witness for C1: 401 then 200, with a callback that installs a token. -/
theorem retryHandler_unauthorized_then_retry_witness :
    (retryHandler sampleExternals worldWithCallback sampleClient.hawkbitURI flakyAuth
        sampleMachine).1 = .ok { error := 0, status := 200, body := "ok" } ∧
    invocations (retryHandler sampleExternals worldWithCallback sampleClient.hawkbitURI
        flakyAuth sampleMachine).2.trace = 2 ∧
    authCallbacks (retryHandler sampleExternals worldWithCallback sampleClient.hawkbitURI
        flakyAuth sampleMachine).2.trace = 1 := by
  have h := retryHandler_unauthorized_then_retry sampleExternals worldWithCallback
    sampleClient.hawkbitURI flakyAuth sampleMachine
    { client := sampleClient, app := 1,
      trace := attemptLog sampleClient.hawkbitURI flakyAuth sampleMachine }
    (fun n => ([RestoreOp.setDeviceToken "fresh"], n)) rfl rfl
  refine ⟨?_, ?_, ?_⟩
  · rw [h.1]; rfl
  · rw [h.2.2.2.1]; exact h.2.2.2.2.1
  · rw [h.2.2.2.1]; exact h.2.2.2.2.2

/-- Witness for C2: an answer 500 is handed back after one attempt, and so
is an answer 401 when no callback is registered. -/
theorem retryHandler_single_attempt_witness :
    (retryHandler sampleExternals worldWithCallback sampleClient.hawkbitURI
        (constFn { error := 0, status := 500, body := "" }) sampleMachine).1 =
      .error (.http_unexpected_code_exception 500 200) ∧
    invocations (retryHandler sampleExternals worldWithCallback sampleClient.hawkbitURI
        (constFn { error := 0, status := 500, body := "" }) sampleMachine).2.trace = 1 ∧
    (retryHandler sampleExternals worldNoCallback sampleClient.hawkbitURI flakyAuth
        sampleMachine).1 = .error .unauthorized_exception ∧
    invocations (retryHandler sampleExternals worldNoCallback sampleClient.hawkbitURI flakyAuth
        sampleMachine).2.trace = 1 := by
  have h := retryHandler_single_attempt sampleExternals worldWithCallback
    sampleClient.hawkbitURI (constFn { error := 0, status := 500, body := "" }) sampleMachine
    (Or.inr (Or.inr (Or.inl ⟨500, 200, rfl⟩)))
  have h2 := retryHandler_single_attempt sampleExternals worldNoCallback
    sampleClient.hawkbitURI flakyAuth sampleMachine
    (Or.inr (Or.inr (Or.inr ⟨rfl, rfl⟩)))
  refine ⟨?_, ?_, ?_, ?_⟩
  · rw [h.1]; rfl
  · rw [h.2.1]; exact h.2.2.1
  · rw [h2.1]; rfl
  · rw [h2.2.1]; exact h2.2.2.1

/-- Witness for C4: the server answers 500 to the feedback POST; with the
marking listener `followCancelAction` returns normally with the flag set, the
error mark left and one `onError` logged; without a listener
`followDeploymentBase` fails with the mismatch (500, 200). -/
theorem feedback_status_mismatch_witness :
    followCancelAction sampleExternals (rejectingWorld (some markingListener))
        sampleFollowURI sampleMachine =
      (.ok (),
        { client := { sampleClient with ignoreSleep := true }
          app := 1002
          trace :=
            (afterPost (rejectingWorld (some markingListener)) (Event.cancelAction 7)).trace ++
              [Event.deliveryError] }) ∧
    followDeploymentBase sampleExternals (rejectingWorld none) sampleFollowURI sampleMachine =
      (.error (.http_unexpected_code_exception 500 200),
        afterPost (rejectingWorld none) (Event.deploymentAction 9)) := by
  have hc := feedback_status_mismatch sampleExternals (rejectingWorld (some markingListener))
    sampleFollowURI sampleMachine
    (afterGet (rejectingWorld (some markingListener)))
    (beforePost (rejectingWorld (some markingListener)) (Event.cancelAction 7))
    (afterPost (rejectingWorld (some markingListener)) (Event.cancelAction 7))
    { error := 0, status := 200, body := "action" }
    (sampleFeedback (some markingListener))
    [("status", Json.obj [("result", Json.obj [("finished", Json.str "success")]),
        ("execution", Json.str "closed"), ("details", Json.arr [Json.str "done"])]),
      ("id", Json.str "7")]
    500 200 rfl rfl
  have hd := feedback_status_mismatch sampleExternals (rejectingWorld none)
    sampleFollowURI sampleMachine
    (afterGet (rejectingWorld none))
    (beforePost (rejectingWorld none) (Event.deploymentAction 9))
    (afterPost (rejectingWorld none) (Event.deploymentAction 9))
    { error := 0, status := 200, body := "action" }
    (sampleFeedback none)
    [("status", Json.obj [("result", Json.obj [("finished", Json.str "success")]),
        ("execution", Json.str "closed"), ("details", Json.arr [Json.str "done"])]),
      ("id", Json.str "9")]
    500 200 rfl rfl
  constructor
  · exact (hc.1 { getId := 7, content := "action" } rfl rfl rfl rfl rfl).1 markingListener rfl
  · exact (hd.2 { getId := 9, content := "action" } rfl rfl rfl).2 rfl

/-- Witness for C5: a token, then a keypair, then a new endpoint. -/
theorem credential_mutual_exclusion_witness :
    sampleClient.mTLSKeypair.isSet = false ∧
    ¬ (((([RestoreOp.setDeviceToken "t", RestoreOp.setTLS "crt" "key",
            RestoreOp.setEndpoint "other.example"] : List RestoreOp).foldl
          (RestoreOp.apply sampleExternals) sampleClient).mTLSKeypair.isSet = true) ∧
        Headers.values
          (([RestoreOp.setDeviceToken "t", RestoreOp.setTLS "crt" "key",
            RestoreOp.setEndpoint "other.example"] : List RestoreOp).foldl
          (RestoreOp.apply sampleExternals) sampleClient).defaultHeaders
          AUTHORIZATION_HEADER ≠ []) :=
  ⟨rfl, (credential_mutual_exclusion sampleExternals sampleClient rfl
    [RestoreOp.setDeviceToken "t", RestoreOp.setTLS "crt" "key",
      RestoreOp.setEndpoint "other.example"]).1⟩

/-- Witness for C7: the follow-up path of the sample URI. -/
theorem formatFeedbackPath_spec_witness :
    sampleFollowURI.getPath ≠ "" ∧
    formatFeedbackPath sampleFollowURI =
      some (sampleFollowURI.getPath ++ "/feedback") :=
  ⟨by decide, (formatFeedbackPath_spec sampleFollowURI (by decide)).2.1 (by decide)⟩

/-- Witness for C8: the empty document and action id 7. -/
theorem fillResponseDocument_id_witness :
    Members.hasMember [] "id" = false ∧
    ∃ d : Members,
      fillResponseDocument sampleExternals (some (sampleFeedback none)) [] 7 = .ok d ∧
      (Members.hasMember d "id" = true ↔ (7 : Int) ≥ 0) :=
  ⟨rfl, by
    obtain ⟨d, h1, h2, _⟩ :=
      fillResponseDocument_id sampleExternals (sampleFeedback none) [] 7 rfl
    exact ⟨d, h1, h2⟩⟩

/-- Witness for C9: one pair of config data, answered 200. -/
theorem followConfigData_request_witness :
    ((configWorld hardwareRevision).handler.onConfigRequest sampleMachine.app).1.getData ≠ [] ∧
    (followConfigData sampleExternals (configWorld hardwareRevision) sampleFollowURI
        sampleMachine).2.trace =
      [Event.configRequest,
        Event.invoke
          { origin := "https://hb.example", clientCert := none,
            serverCertificateVerification := true },
        Event.wire (WireEvent.http
          { method := Method.PUT
            path := "/t/controller/v1/dev/cancelAction/7"
            headers := []
            body := "json"
            contentType := "application/json" })] :=
  ⟨by decide,
    (followConfigData_request sampleExternals (configWorld hardwareRevision) sampleFollowURI
      sampleMachine
      { method := Method.PUT
        path := "/t/controller/v1/dev/cancelAction/7"
        headers := []
        body := "json"
        contentType := "application/json" } rfl).2 (by decide) (by decide)⟩

/-- C10 (counterexample): the application answers the config request with an
empty data mapping and `isIgnoredSleep() = true`; `followConfigData`, entered
with the flag reset to false, completes normally and the flag is still
false, so the loop pass that dispatched to it ends with a sleep. -/
theorem followConfigData_empty_data_flag :
    (followConfigData sampleExternals (configWorld nothingToReport) sampleFollowURI
        sampleMachine).1 = .ok () ∧
    (followConfigData sampleExternals (configWorld nothingToReport) sampleFollowURI
        sampleMachine).2.client.ignoreSleep = false ∧
    ((configWorld nothingToReport).handler.onConfigRequest
        sampleMachine.app).1.isIgnoredSleep = true ∧
    ((configWorld nothingToReport).handler.onConfigRequest sampleMachine.app).1.getData = [] ∧
    (iteration configPollExternals (configWorld nothingToReport) sampleMachine).1 = .ok () ∧
    (iteration configPollExternals (configWorld nothingToReport) sampleMachine).2.trace.getLast? =
      some (Event.sleep 5000) := by
  refine ⟨rfl, rfl, rfl, rfl, rfl, ?_⟩
  decide

/-- Witness for C10 (as amended): one pair of config data, answered 200; the
flag takes the request's value. -/
theorem followConfigData_ignoreSleep_witness :
    followConfigData sampleExternals (configWorld hardwareRevision) sampleFollowURI
        sampleMachine =
      (.ok (), (followConfigData sampleExternals (configWorld hardwareRevision) sampleFollowURI
        sampleMachine).2) ∧
    (followConfigData sampleExternals (configWorld hardwareRevision) sampleFollowURI
        sampleMachine).2.client.ignoreSleep = true :=
  ⟨rfl, (followConfigData_ignoreSleep sampleExternals (configWorld hardwareRevision)
    sampleFollowURI sampleMachine _ rfl).1 (by decide)⟩

/-! ## Theorems: failures of the feedback POST other than a status mismatch -/

/-- C14: in `followCancelAction` and in `followDeploymentBase`, when the
feedback POST through `retryHandler` fails in state `s3` with a failure `e`
that is not a status mismatch (a transport error, or unauthorized once the
retry wrapper has given up), the sub-protocol fails with `e` in that same
state `s3`, whether or not the feedback carries a listener: nothing is logged
after the POST, so neither `onError` nor `onSuccessfulDelivery` runs. -/
theorem feedback_other_failure {App : Type} (X : Externals) (W : World App)
    (followURI : URI) (s s1 s2 s3 : Machine App) (resp : HttpResult)
    (cliResp : Response App) (document : Members) (e : Exn)
    (hget : retryHandler X W followURI (getFollowUp W followURI) s = (.ok resp, s1))
    (hpost : retryHandler X W followURI
        (postFeedback W followURI (X.accept (Json.obj document))) s2 = (.error e, s3))
    (hne : ∀ p q : Int, e ≠ .http_unexpected_code_exception p q) :
    (∀ cancelAction : CancelAction,
      X.cancelActionFromString resp.body = .ok cancelAction →
      W.handler.onCancelAction cancelAction s1.app = (some cliResp, s2.app) →
      s2.client = s1.client →
      s2.trace = s1.trace ++ [Event.cancelAction cancelAction.getId] →
      fillResponseDocument X (some cliResp) [] cancelAction.getId = .ok document →
      followCancelAction X W followURI s = (.error e, s3)) ∧
    (∀ deploymentBase : DeploymentBase,
      X.deploymentBaseFrom resp.body = .ok deploymentBase →
      W.handler.onDeploymentAction deploymentBase
        { s1 with trace := s1.trace ++ [Event.deploymentAction deploymentBase.getId] } =
          (.ok (some cliResp), s2) →
      fillResponseDocument X (some cliResp) [] deploymentBase.getId = .ok document →
      followDeploymentBase X W followURI s = (.error e, s3)) := by
  constructor
  · intro cancelAction hdec hh hc ht hdoc
    have hs2 : ({ s1 with app := (W.handler.onCancelAction cancelAction s1.app).2
                          trace := s1.trace ++ [Event.cancelAction cancelAction.getId] } :
        Machine App) = s2 := by
      rw [hh, ← hc, ← ht]
    have h1 : (W.handler.onCancelAction cancelAction s1.app).1 = some cliResp := by rw [hh]
    unfold followCancelAction
    simp only [hget, hdec, h1, hdoc, hs2, hpost]
  · intro deploymentBase hdec hh hdoc
    unfold followDeploymentBase
    simp only [hget, hdec, hh, hdoc, hpost]

/-- Witness for C14: the transport fails on the feedback POST; with the
marking listener attached `followCancelAction` fails with the transport error
in the state the POST left, and so does `followDeploymentBase` without a
listener. -/
theorem feedback_other_failure_witness :
    followCancelAction sampleExternals (brokenPostWorld (some markingListener))
        sampleFollowURI sampleMachine =
      (.error (.http_lib_error 4),
        afterPost (brokenPostWorld (some markingListener)) (Event.cancelAction 7)) ∧
    followDeploymentBase sampleExternals (brokenPostWorld none) sampleFollowURI sampleMachine =
      (.error (.http_lib_error 4),
        afterPost (brokenPostWorld none) (Event.deploymentAction 9)) := by
  have hc := feedback_other_failure sampleExternals (brokenPostWorld (some markingListener))
    sampleFollowURI sampleMachine
    (afterGet (brokenPostWorld (some markingListener)))
    (beforePost (brokenPostWorld (some markingListener)) (Event.cancelAction 7))
    (afterPost (brokenPostWorld (some markingListener)) (Event.cancelAction 7))
    { error := 0, status := 200, body := "action" }
    (sampleFeedback (some markingListener))
    [("status", Json.obj [("result", Json.obj [("finished", Json.str "success")]),
        ("execution", Json.str "closed"), ("details", Json.arr [Json.str "done"])]),
      ("id", Json.str "7")]
    (.http_lib_error 4) rfl rfl (by intro p q h; exact Exn.noConfusion h)
  have hd := feedback_other_failure sampleExternals (brokenPostWorld none)
    sampleFollowURI sampleMachine
    (afterGet (brokenPostWorld none))
    (beforePost (brokenPostWorld none) (Event.deploymentAction 9))
    (afterPost (brokenPostWorld none) (Event.deploymentAction 9))
    { error := 0, status := 200, body := "action" }
    (sampleFeedback none)
    [("status", Json.obj [("result", Json.obj [("finished", Json.str "success")]),
        ("execution", Json.str "closed"), ("details", Json.arr [Json.str "done"])]),
      ("id", Json.str "9")]
    (.http_lib_error 4) rfl rfl (by intro p q h; exact Exn.noConfusion h)
  exact ⟨hc.1 { getId := 7, content := "action" } rfl rfl rfl rfl rfl,
    hd.2 { getId := 9, content := "action" } rfl rfl rfl⟩

/-! ## Theorems: shape of the feedback document and bounds of the path read -/

/-- C17: for a non-null response `fillResponseDocument` adds to the document
a `status` object with exactly the members `result`, `execution` and
`details`, in which `result.finished` is `finishedToString` of the finished
status, `execution` is `executionToString` of the execution status and
`details` is an array with the same length and the same strings in the same
order as the detail list; after it comes the `id` member or nothing.  For a
null response the call fails with `wrong_response` before any member is
added (no document is returned). -/
theorem fillResponseDocument_status {App : Type} (X : Externals) (response : Response App)
    (document : Members) (actionId : Int) :
    (∃ rest : Members,
      fillResponseDocument X (some response) document actionId =
        .ok (document ++
          ("status", Json.obj
            [("result", Json.obj
                [("finished", Json.str (X.finishedToString response.getFinished))]),
             ("execution", Json.str (X.executionToString response.getExecution)),
             ("details", Json.arr (response.getDetails.map Json.str))]) :: rest) ∧
      (rest = [] ∨ rest = [("id", Json.str (to_string actionId))])) ∧
    (response.getDetails.map Json.str).length = response.getDetails.length ∧
    (∀ i : Nat, (response.getDetails.map Json.str)[i]? =
      (response.getDetails[i]?).map Json.str) ∧
    fillResponseDocument X (none : Option (Response App)) document actionId =
      .error .wrong_response := by
  refine ⟨?_, List.length_map _ _, ?_, rfl⟩
  · by_cases h : actionId ≥ 0
    · exact ⟨[("id", Json.str (to_string actionId))], by simp [fillResponseDocument, h],
        Or.inr rfl⟩
    · exact ⟨[], by simp [fillResponseDocument, h], Or.inl rfl⟩
  · intro i
    simp

/-- On a length that fits in 64 bits and is not zero, the index computed by
`lastIndex` is the length minus one. -/
theorem lastIndex_of_pos (n : Nat) (h0 : 0 < n) (hn : n < 2 ^ 64) : lastIndex n = n - 1 := by
  unfold lastIndex
  omega

/-- On length zero the index computed by `lastIndex` is the largest 64-bit
number. -/
theorem lastIndex_zero : lastIndex 0 = 2 ^ 64 - 1 := by
  decide

/-- C18: `formatFeedbackPath` reads the character at index `length - 1` of the
path (the read of the model is the read at `lastIndex`); that index is within
the bounds of the path iff the path is not empty; for an empty path the index
is `2^64 - 1`, out of range, and the function has no defined result; it has
one for every other path. -/
theorem formatFeedbackPath_bounds (uri : URI) (hlen : uri.getPath.data.length < 2 ^ 64) :
    uri.getPath.data.getLast? = uri.getPath.data[lastIndex uri.getPath.data.length]? ∧
    (lastIndex uri.getPath.data.length < uri.getPath.data.length ↔ uri.getPath ≠ "") ∧
    (uri.getPath = "" →
      lastIndex uri.getPath.data.length = 2 ^ 64 - 1 ∧ formatFeedbackPath uri = none) ∧
    (formatFeedbackPath uri = none ↔ uri.getPath = "") := by
  have hempty : uri.getPath = "" ↔ uri.getPath.data = [] := by
    constructor
    · intro h
      rw [h]
    · intro h
      exact String.ext h
  have hnone : formatFeedbackPath uri = none ↔ uri.getPath = "" := by
    rw [hempty]
    unfold formatFeedbackPath
    cases hl : uri.getPath.data.getLast? with
    | none =>
      simp only [hl]
      simpa using List.getLast?_eq_none_iff.mp hl
    | some c =>
      have : uri.getPath.data ≠ [] := by
        intro h0
        rw [h0] at hl
        simp at hl
      simp only [hl]
      simp [this]
  refine ⟨?_, ?_, ?_, hnone⟩
  · cases hd : uri.getPath.data with
    | nil => simp [lastIndex_zero]
    | cons a t =>
      have hpos : 0 < (a :: t).length := by simp
      have hlt : (a :: t).length < 2 ^ 64 := by rw [← hd]; exact hlen
      rw [lastIndex_of_pos _ hpos hlt, List.getLast?_eq_getElem?]
  · rw [ne_eq, hempty]
    cases hd : uri.getPath.data with
    | nil => simp [lastIndex_zero]
    | cons a t =>
      have hpos : 0 < (a :: t).length := by simp
      have hlt : (a :: t).length < 2 ^ 64 := by rw [← hd]; exact hlen
      rw [lastIndex_of_pos _ hpos hlt]
      simp
  · intro h
    refine ⟨?_, hnone.mpr h⟩
    rw [h]
    exact lastIndex_zero

/-- Witness for C18: a follow-up URI that is an origin with no path. -/
theorem formatFeedbackPath_bounds_witness :
    ({ scheme := "https", authority := "hb.example", path := "" } : URI).getPath.data.length <
      2 ^ 64 ∧
    formatFeedbackPath { scheme := "https", authority := "hb.example", path := "" } = none ∧
    ¬ (lastIndex 0 < 0) :=
  ⟨by decide,
    ((formatFeedbackPath_bounds { scheme := "https", authority := "hb.example", path := "" }
      (by decide)).2.2.1 rfl).2,
    by decide⟩

/-! ## Theorems: poll loop -/

/-- No call on the restore handle touches the ignore-sleep flag or the two
sleep times. -/
theorem RestoreOp.apply_timing (X : Externals) (c : ClientState) (op : RestoreOp) :
    (RestoreOp.apply X c op).ignoreSleep = c.ignoreSleep ∧
    (RestoreOp.apply X c op).currentSleepTime = c.currentSleepTime ∧
    (RestoreOp.apply X c op).defaultSleepTime = c.defaultSleepTime := by
  cases op <;> exact ⟨rfl, rfl, rfl⟩

/-- The same for any sequence of calls on the restore handle. -/
theorem RestoreOp.foldl_timing (X : Externals) (ops : List RestoreOp) (c : ClientState) :
    (ops.foldl (RestoreOp.apply X) c).ignoreSleep = c.ignoreSleep ∧
    (ops.foldl (RestoreOp.apply X) c).currentSleepTime = c.currentSleepTime ∧
    (ops.foldl (RestoreOp.apply X) c).defaultSleepTime = c.defaultSleepTime := by
  induction ops generalizing c with
  | nil => exact ⟨rfl, rfl, rfl⟩
  | cons op t ih =>
    rw [List.foldl_cons]
    obtain ⟨h1, h2, h3⟩ := ih (RestoreOp.apply X c op)
    obtain ⟨g1, g2, g3⟩ := RestoreOp.apply_timing X c op
    exact ⟨h1.trans g1, h2.trans g2, h3.trans g3⟩

/-- The state `wrappedRequest` leaves has the client it found. -/
theorem wrappedRequest_client {App : Type} (reqUri : URI) (func : RequestFn App)
    (s s1 : Machine App) (o : Except Exn HttpResult)
    (h : wrappedRequest reqUri func s = (o, s1)) : s1.client = s.client := by
  have hs := wrappedRequest_state reqUri func s
  rw [h] at hs
  simp only at hs
  rw [hs]

/-- The retry wrapper leaves the ignore-sleep flag and the two sleep times as
it found them, whatever the callback does. -/
theorem retryHandler_timing {App : Type} (X : Externals) (W : World App) (reqUri : URI)
    (func : RequestFn App) (s s1 : Machine App) (o : Except Exn HttpResult)
    (h : retryHandler X W reqUri func s = (o, s1)) :
    s1.client.ignoreSleep = s.client.ignoreSleep ∧
    s1.client.currentSleepTime = s.client.currentSleepTime ∧
    s1.client.defaultSleepTime = s.client.defaultSleepTime := by
  unfold retryHandler at h
  split at h
  · rename_i sa heq
    have hsa := wrappedRequest_client reqUri func s sa _ heq
    split at h
    · have : s1 = sa := by
        injection h with _ h2
        exact h2.symm
      rw [this, hsa]
      exact ⟨rfl, rfl, rfl⟩
    · rename_i cb hcb
      have hc := wrappedRequest_client reqUri func _ s1 o h
      rw [hc]
      have hf := RestoreOp.foldl_timing X (cb sa.app).1 sa.client
      simp only [onAuthError]
      rw [← hsa]
      exact hf
  · have hc := wrappedRequest_client reqUri func s s1 o h
    rw [hc]
    exact ⟨rfl, rfl, rfl⟩

/-- C12: on entry to `run`, if the endpoint is unset and no callback is
registered, `run` fails with `client_initialize_error` in the state it was
entered in (nothing logged, so no request was attempted); if the endpoint is
unset and a callback is registered, the callback runs once (the entry logs
exactly that one call, as `run` followed for zero loop passes shows), the loop
starts from the state the callback left, and its first request attempt is
logged after the callback; if the endpoint is set, the loop starts from the
entry state without a call of the callback. -/
theorem run_entry {App : Type} (X : Externals) (W : World App) (n : Nat) (s : Machine App) :
    (s.client.hawkbitURI.isEmpty = true → W.authErrorHandler = none →
      run X W n s =
        (.error (.client_initialize_error "endpoint or AuthErrorHandler is not set"), s)) ∧
    (∀ cb, s.client.hawkbitURI.isEmpty = true → W.authErrorHandler = some cb →
      run X W n s = loop X W n (onAuthError X cb s) ∧
      run X W 0 s = (.ok (), onAuthError X cb s) ∧
      (onAuthError X cb s).trace = s.trace ++ [Event.authError] ∧
      authCallbacks [Event.authError] = 1 ∧
      invocations [Event.authError] = 0 ∧
      (wrappedRequest (onAuthError X cb s).client.hawkbitURI (pollGet W)
          { onAuthError X cb s with
            client := { (onAuthError X cb s).client with ignoreSleep := false } }).2.trace =
        s.trace ++ Event.authError ::
          attemptLog (onAuthError X cb s).client.hawkbitURI (pollGet W)
            { onAuthError X cb s with
              client := { (onAuthError X cb s).client with ignoreSleep := false } }) ∧
    (s.client.hawkbitURI.isEmpty = false →
      run X W n s = loop X W n s ∧ run X W 0 s = (.ok (), s)) := by
  refine ⟨?_, ?_, ?_⟩
  · intro he hn
    simp [run, he, hn]
  · intro cb he hcb
    refine ⟨by simp [run, he, hcb], by simp [run, he, hcb, loop], rfl, rfl, rfl, ?_⟩
    rw [wrappedRequest_state]
    simp [onAuthError]
  · intro he
    exact ⟨by simp [run, he], by simp [run, he, loop]⟩

/-- The calls on the restore handle do not read the document writer. -/
theorem RestoreOp.apply_accept (X : Externals) (a : Json → String) :
    RestoreOp.apply { X with accept := a } = RestoreOp.apply X := by
  funext c op
  cases op <;> rfl

/-- The retry wrapper does not read the document writer. -/
theorem retryHandler_accept {App : Type} (X : Externals) (a : Json → String) (W : World App)
    (reqUri : URI) (func : RequestFn App) (s : Machine App) :
    retryHandler { X with accept := a } W reqUri func s = retryHandler X W reqUri func s := by
  unfold retryHandler onAuthError
  rw [RestoreOp.apply_accept]

/-- C13: when the poll GET, through `retryHandler`, returned `resp` in state
`s1` and the decoded directive has action kind NONE, `doPoll` returns
normally; after the poll the log grows by exactly one `onNoActions` (no call
of a request function, nothing on the wire); the current sleep time is the
directive's value if positive, else the default; the ignore-sleep flag is as
`doPoll` found it (false inside the loop); and the result does not depend on
the document writer, that is, no document is encoded. -/
theorem doPoll_none {App : Type} (X : Externals) (W : World App) (s s1 : Machine App)
    (resp : HttpResult) (pd : PollingData)
    (hpoll : retryHandler X W s.client.hawkbitURI (pollGet W) s = (.ok resp, s1))
    (hdec : X.pollingDataFromString resp.body = .ok pd)
    (hact : pd.getAction = Actions_.NONE) :
    doPoll X W s =
      (.ok (),
        { client :=
            { s1.client with currentSleepTime :=
                if pd.getSleepTime > 0 then pd.getSleepTime else s.client.defaultSleepTime }
          app := W.handler.onNoActions s1.app
          trace := s1.trace ++ [Event.noActions] }) ∧
    (doPoll X W s).2.client.ignoreSleep = s.client.ignoreSleep ∧
    (s.client.ignoreSleep = false → (doPoll X W s).2.client.ignoreSleep = false) ∧
    (doPoll X W s).2.client.currentSleepTime =
      (if pd.getSleepTime > 0 then pd.getSleepTime else s.client.defaultSleepTime) ∧
    invocations [Event.noActions] = 0 ∧
    (∀ a : Json → String, doPoll { X with accept := a } W s = doPoll X W s) := by
  have ht := retryHandler_timing X W _ _ s s1 _ hpoll
  have hpoll2 : retryHandler X W s.client.hawkbitURI
      (fun cli c app =>
        send W cli
          { method := .GET, path := c.hawkbitURI.getPath, headers := c.defaultHeaders,
            body := "", contentType := "" } app) s = (.ok resp, s1) := hpoll
  have hmain : doPoll X W s =
      (.ok (),
        { client :=
            { s1.client with currentSleepTime :=
                if pd.getSleepTime > 0 then pd.getSleepTime else s.client.defaultSleepTime }
          app := W.handler.onNoActions s1.app
          trace := s1.trace ++ [Event.noActions] }) := by
    unfold doPoll
    simp only [hpoll2, hdec, hact, ht.2.2]
  refine ⟨hmain, ?_, ?_, ?_, rfl, ?_⟩
  · rw [hmain]
    exact ht.1
  · intro hf
    rw [hmain]
    exact ht.1.trans hf
  · rw [hmain]
  · intro a
    rw [hmain]
    unfold doPoll
    have hpoll3 := hpoll2
    rw [← retryHandler_accept X a] at hpoll3
    simp only [hpoll3]
    simp only [hdec, hact, ht.2.2]

/-- Witness for C12: no endpoint and no callback; no endpoint and a callback
that sets it; an endpoint already set. -/
theorem run_entry_witness :
    run sampleExternals worldNoCallback 3 unsetMachine =
      (.error (.client_initialize_error "endpoint or AuthErrorHandler is not set"),
        unsetMachine) ∧
    (run sampleExternals provisioningWorld 0 unsetMachine).2.trace = [Event.authError] ∧
    (run sampleExternals provisioningWorld 0 unsetMachine).2.client.hawkbitURI =
      { scheme := "https", authority := "hb.example", path := "/" } ∧
    run sampleExternals provisioningWorld 0 sampleMachine = (.ok (), sampleMachine) := by
  have h1 := (run_entry sampleExternals worldNoCallback 3 unsetMachine).1 rfl rfl
  have h2 := ((run_entry sampleExternals provisioningWorld 0 unsetMachine).2.1
    (fun n => ([RestoreOp.setEndpoint "hb.example", RestoreOp.setDeviceToken "fresh"], n))
    rfl rfl).2.1
  have h3 := ((run_entry sampleExternals provisioningWorld 0 sampleMachine).2.2 rfl).2
  refine ⟨h1, ?_, ?_, h3⟩
  · rw [h2]; rfl
  · rw [h2]; rfl

/-- Witness for C13: a poll answered 200 whose directive is "no action" with
no suggested sleep time; the default (1000 ms) becomes the current sleep
time. -/
theorem doPoll_none_witness :
    (doPoll nonePollExternals worldNoCallback sampleMachine).1 = .ok () ∧
    (doPoll nonePollExternals worldNoCallback sampleMachine).2.trace =
      [Event.invoke
          { origin := "https://hb.example", clientCert := none,
            serverCertificateVerification := true },
        Event.wire (WireEvent.http
          { method := Method.GET, path := "/t/controller/v1/dev", headers := [], body := "",
            contentType := "" }),
        Event.noActions] ∧
    (doPoll nonePollExternals worldNoCallback sampleMachine).2.client.currentSleepTime = 1000 ∧
    (doPoll nonePollExternals worldNoCallback sampleMachine).2.client.ignoreSleep = false := by
  have h := doPoll_none nonePollExternals worldNoCallback sampleMachine
    (retryHandler nonePollExternals worldNoCallback sampleClient.hawkbitURI
      (pollGet worldNoCallback) sampleMachine).2
    { error := 0, status := 200, body := "" }
    { getSleepTime := 0, getFollowURI := { scheme := "", authority := "", path := "" },
      getAction := .NONE }
    rfl rfl rfl
  refine ⟨?_, ?_, ?_, h.2.2.1 rfl⟩
  · rw [h.1]
  · rw [h.1]; rfl
  · rw [h.2.2.2.1]; rfl

/-! ## Theorems: what the retry is built from -/

/-- C16: in `retryHandler`, after a first attempt that failed as unauthorized
with a callback registered, the second attempt runs on the client state the
callback left (the setter calls it made, applied in order to the client of
the first attempt) and with an HTTP client built from the same request URI
as the first: its origin is that of the first attempt, scheme and authority
of `reqUri`, whatever the callback did to the endpoint, while its
certificate pair is the keypair left by the callback and the request function
is run on the client the callback left, so that the plain calls of the unit
(`pollGet`, `getFollowUp`) send the default headers left by the callback. -/
theorem retry_uses_captured_uri {App : Type} (X : Externals) (W : World App)
    (reqUri : URI) (func : RequestFn App) (s s1 : Machine App)
    (cb : App → List RestoreOp × App) (hcb : W.authErrorHandler = some cb)
    (h1 : wrappedRequest reqUri func s = (.error .unauthorized_exception, s1)) :
    retryHandler X W reqUri func s = wrappedRequest reqUri func (onAuthError X cb s1) ∧
    (onAuthError X cb s1).client = (cb s1.app).1.foldl (RestoreOp.apply X) s.client ∧
    (retryHandler X W reqUri func s).2.trace =
      s1.trace ++ Event.authError ::
        Event.invoke (newHttpClient (onAuthError X cb s1).client reqUri) ::
          (func (newHttpClient (onAuthError X cb s1).client reqUri)
            (onAuthError X cb s1).client (cb s1.app).2).emitted.map Event.wire ∧
    (newHttpClient (onAuthError X cb s1).client reqUri).origin =
      (newHttpClient s.client reqUri).origin ∧
    (newHttpClient (onAuthError X cb s1).client reqUri).origin =
      reqUri.getScheme ++ "://" ++ reqUri.getAuthority ∧
    (newHttpClient (onAuthError X cb s1).client reqUri).clientCert =
      (if (onAuthError X cb s1).client.mTLSKeypair.isSet = true then
        some ((onAuthError X cb s1).client.mTLSKeypair.crt,
          (onAuthError X cb s1).client.mTLSKeypair.key)
      else none) ∧
    (∀ (cli : HttpClient) (c : ClientState) (app : App),
      (pollGet W cli c app).emitted =
        [WireEvent.http
          { method := Method.GET, path := c.hawkbitURI.getPath, headers := c.defaultHeaders,
            body := "", contentType := "" }] ∧
      (getFollowUp W reqUri cli c app).emitted =
        [WireEvent.http
          { method := Method.GET, path := reqUri.getPath, headers := c.defaultHeaders,
            body := "", contentType := "" }]) := by
  have hr : retryHandler X W reqUri func s =
      wrappedRequest reqUri func (onAuthError X cb s1) := by
    unfold retryHandler
    rw [h1]
    simp [hcb]
  have hc := wrappedRequest_client reqUri func s s1 _ h1
  refine ⟨hr, ?_, ?_, ?_, ?_, ?_, ?_⟩
  · simp [onAuthError, hc]
  · rw [hr, wrappedRequest_state]
    simp [onAuthError, attemptLog]
  · unfold newHttpClient
    split <;> split <;> rfl
  · unfold newHttpClient
    split <;> rfl
  · unfold newHttpClient
    split
    · rename_i h
      simp [h]
    · rename_i h
      simp [h]
  · intro cli c app
    exact ⟨rfl, rfl⟩

/-- Witness for C16: the poll is answered 401, the callback moves the
endpoint to `other.example` and installs a token, and the retry still goes to
`https://hb.example`, with the new token in its headers. -/
theorem retry_uses_captured_uri_witness :
    (retryHandler sampleExternals rehomingWorld sampleClient.hawkbitURI
        (pollGet rehomingWorld) sampleMachine).2.trace =
      [Event.invoke
          { origin := "https://hb.example", clientCert := none,
            serverCertificateVerification := true },
        Event.wire (WireEvent.http
          { method := Method.GET, path := "/t/controller/v1/dev", headers := [], body := "",
            contentType := "" }),
        Event.authError,
        Event.invoke
          { origin := "https://hb.example", clientCert := none,
            serverCertificateVerification := true },
        Event.wire (WireEvent.http
          { method := Method.GET, path := "/",
            headers := [("Authorization", "TargetToken fresh")], body := "",
            contentType := "" })] ∧
    (retryHandler sampleExternals rehomingWorld sampleClient.hawkbitURI
        (pollGet rehomingWorld) sampleMachine).2.client.hawkbitURI.authority =
      "other.example" := by
  have h := retry_uses_captured_uri sampleExternals rehomingWorld sampleClient.hawkbitURI
    (pollGet rehomingWorld) sampleMachine
    (wrappedRequest sampleClient.hawkbitURI (pollGet rehomingWorld) sampleMachine).2
    (fun n => ([RestoreOp.setEndpoint "other.example", RestoreOp.setDeviceToken "fresh"], n))
    rfl rfl
  refine ⟨?_, ?_⟩
  · rw [h.2.2.1]; rfl
  · rw [h.1]; rfl

/-! ## Theorems: sleep of a loop pass -/

/-- The config-data sub-protocol leaves the current sleep time as it found
it. -/
theorem followConfigData_currentSleepTime {App : Type} (X : Externals) (W : World App)
    (followURI : URI) (s s' : Machine App) (o : Except Exn Unit)
    (h : followConfigData X W followURI s = (o, s')) :
    s'.client.currentSleepTime = s.client.currentSleepTime := by
  unfold followConfigData at h
  simp only at h
  split at h
  · injection h with _ h2
    rw [← h2]
  · split at h
    · injection h with _ h2
      rw [← h2]
    · split at h
      · rename_i heq
        have ht := retryHandler_timing X W _ _ _ _ _ heq
        injection h with _ h2
        rw [← h2, ht.2.1]
      · rename_i heq
        have ht := retryHandler_timing X W _ _ _ _ _ heq
        injection h with _ h2
        rw [← h2]
        exact ht.2.1

/-- The cancel-action sub-protocol leaves the current sleep time as it found
it. -/
theorem followCancelAction_currentSleepTime {App : Type} (X : Externals) (W : World App)
    (followURI : URI) (s s' : Machine App) (o : Except Exn Unit)
    (h : followCancelAction X W followURI s = (o, s')) :
    s'.client.currentSleepTime = s.client.currentSleepTime := by
  unfold followCancelAction at h
  split at h
  · rename_i heq
    have ht := retryHandler_timing X W _ _ _ _ _ heq
    injection h with _ h2
    rw [← h2, ht.2.1]
  · rename_i hget
    have ht := retryHandler_timing X W _ _ _ _ _ hget
    split at h
    · injection h with _ h2
      rw [← h2, ht.2.1]
    · simp only at h
      split at h
      · injection h with _ h2
        rw [← h2]
        exact ht.2.1
      · injection h with _ h2
        rw [← h2]
        exact ht.2.1
      · split at h
        · rename_i hpost
          have hp := retryHandler_timing X W _ _ _ _ _ hpost
          split at h
          · injection h with _ h2
            rw [← h2]
            exact hp.2.1.trans ht.2.1
          · injection h with _ h2
            rw [← h2]
            exact hp.2.1.trans ht.2.1
        · rename_i hpost
          have hp := retryHandler_timing X W _ _ _ _ _ hpost
          split at h
          · injection h with _ h2
            rw [← h2]
            exact hp.2.1.trans ht.2.1
          · injection h with _ h2
            rw [← h2]
            exact hp.2.1.trans ht.2.1
        · rename_i hpost
          have hp := retryHandler_timing X W _ _ _ _ _ hpost
          injection h with _ h2
          rw [← h2]
          exact hp.2.1.trans ht.2.1

/-- The deployment-base sub-protocol leaves the current sleep time as it found
it, provided the application's deployment handler does. -/
theorem followDeploymentBase_currentSleepTime {App : Type} (X : Externals) (W : World App)
    (hframe : ∀ (d : DeploymentBase) (m : Machine App),
      (W.handler.onDeploymentAction d m).2.client.currentSleepTime =
        m.client.currentSleepTime)
    (followURI : URI) (s s' : Machine App) (o : Except Exn Unit)
    (h : followDeploymentBase X W followURI s = (o, s')) :
    s'.client.currentSleepTime = s.client.currentSleepTime := by
  have hfr : ∀ (d : DeploymentBase) (m m' : Machine App)
      (r : Except Exn (Option (Response App))),
      W.handler.onDeploymentAction d m = (r, m') →
        m'.client.currentSleepTime = m.client.currentSleepTime := by
    intro d m m' r hq
    have hx := hframe d m
    rw [hq] at hx
    exact hx
  unfold followDeploymentBase at h
  split at h
  · rename_i heq
    have ht := retryHandler_timing X W _ _ _ _ _ heq
    injection h with _ h2
    rw [← h2, ht.2.1]
  · rename_i hget
    have ht := retryHandler_timing X W _ _ _ _ _ hget
    split at h
    · injection h with _ h2
      rw [← h2, ht.2.1]
    · simp only at h
      split at h
      · rename_i hh
        have hf := hfr _ _ _ _ hh
        injection h with _ h2
        rw [← h2]
        exact hf.trans ht.2.1
      · rename_i hh
        have hf := hfr _ _ _ _ hh
        simp only at hf
        split at h
        · injection h with _ h2
          rw [← h2]
          exact hf.trans ht.2.1
        · injection h with _ h2
          rw [← h2]
          exact hf.trans ht.2.1
        · split at h
          · rename_i hpost
            have hp := retryHandler_timing X W _ _ _ _ _ hpost
            split at h
            · injection h with _ h2
              rw [← h2]
              exact hp.2.1.trans (hf.trans ht.2.1)
            · injection h with _ h2
              rw [← h2]
              exact hp.2.1.trans (hf.trans ht.2.1)
          · rename_i hpost
            have hp := retryHandler_timing X W _ _ _ _ _ hpost
            split at h
            · injection h with _ h2
              rw [← h2]
              exact hp.2.1.trans (hf.trans ht.2.1)
            · injection h with _ h2
              rw [← h2]
              exact hp.2.1.trans (hf.trans ht.2.1)
          · rename_i hpost
            have hp := retryHandler_timing X W _ _ _ _ _ hpost
            injection h with _ h2
            rw [← h2]
            exact hp.2.1.trans (hf.trans ht.2.1)

/-- The three calls a deployment handler can make on the client as its
download provider (`downloadTo`, `getBody`, `downloadWithReceiver`) leave the
ignore-sleep flag and the two sleep times as they found them. -/
theorem downloadProvider_timing {App : Type} (X : Externals) (W : World App)
    (D : Streaming App) (downloadURI : URI) (path : String)
    (func : String → App → Bool × App) (s : Machine App) :
    ((downloadTo X W D downloadURI path s).2.client.ignoreSleep = s.client.ignoreSleep ∧
      (downloadTo X W D downloadURI path s).2.client.currentSleepTime =
        s.client.currentSleepTime ∧
      (downloadTo X W D downloadURI path s).2.client.defaultSleepTime =
        s.client.defaultSleepTime) ∧
    ((getBody X W downloadURI s).2.client.ignoreSleep = s.client.ignoreSleep ∧
      (getBody X W downloadURI s).2.client.currentSleepTime = s.client.currentSleepTime ∧
      (getBody X W downloadURI s).2.client.defaultSleepTime = s.client.defaultSleepTime) ∧
    ((downloadWithReceiver X W D downloadURI func s).2.client.ignoreSleep =
        s.client.ignoreSleep ∧
      (downloadWithReceiver X W D downloadURI func s).2.client.currentSleepTime =
        s.client.currentSleepTime ∧
      (downloadWithReceiver X W D downloadURI func s).2.client.defaultSleepTime =
        s.client.defaultSleepTime) := by
  refine ⟨?_, ?_, ?_⟩
  · unfold downloadTo
    split
    · rename_i heq
      exact retryHandler_timing X W _ _ { s with app := D.openFile path s.app } _ _ heq
    · rename_i heq
      exact retryHandler_timing X W _ _ { s with app := D.openFile path s.app } _ _ heq
  · unfold getBody
    split
    · rename_i heq
      exact retryHandler_timing X W _ _ _ _ _ heq
    · rename_i heq
      exact retryHandler_timing X W _ _ _ _ _ heq
  · unfold downloadWithReceiver
    split
    · rename_i heq
      exact retryHandler_timing X W _ _ _ _ _ heq
    · rename_i heq
      exact retryHandler_timing X W _ _ _ _ _ heq

/-- A poll that returns normally had its GET answered, the answer decoded to
a directive `pd`, and leaves as current sleep time the directive's value if
positive, else the default; with a directive "no action" it leaves the
ignore-sleep flag as it found it. -/
theorem doPoll_ok {App : Type} (X : Externals) (W : World App)
    (hframe : ∀ (d : DeploymentBase) (m : Machine App),
      (W.handler.onDeploymentAction d m).2.client.currentSleepTime =
        m.client.currentSleepTime)
    (s sd : Machine App) (h : doPoll X W s = (.ok (), sd)) :
    ∃ (resp : HttpResult) (s1 : Machine App) (pd : PollingData),
      retryHandler X W s.client.hawkbitURI (pollGet W) s = (.ok resp, s1) ∧
      X.pollingDataFromString resp.body = .ok pd ∧
      sd.client.currentSleepTime =
        (if pd.getSleepTime > 0 then pd.getSleepTime else s.client.defaultSleepTime) ∧
      (pd.getAction = Actions_.NONE → sd.client.ignoreSleep = s.client.ignoreSleep) := by
  unfold doPoll at h
  split at h
  · injection h with h1 _
    exact Except.noConfusion h1
  · rename_i resp s1 hpoll
    have ht := retryHandler_timing X W _ _ _ _ _ hpoll
    split at h
    · injection h with h1 _
      exact Except.noConfusion h1
    · rename_i pd hdec
      refine ⟨resp, s1, pd, hpoll, hdec, ?_, ?_⟩
      · simp only at h
        split at h
        · injection h with _ h2
          rw [← h2, ht.2.2]
        · have hc := followConfigData_currentSleepTime X W _ _ _ _ h
          rw [hc, ht.2.2]
        · have hc := followCancelAction_currentSleepTime X W _ _ _ _ h
          rw [hc, ht.2.2]
        · have hc := followDeploymentBase_currentSleepTime X W hframe _ _ _ _ h
          rw [hc, ht.2.2]
      · intro hact
        simp only [hact] at h
        injection h with _ h2
        rw [← h2]
        exact ht.1

/-- C11: in every pass of the loop that completes (the application's
deployment handler leaving the current sleep time alone), the poll GET was
answered and decoded to a directive `pd`; the current sleep time after
`doPoll` is the directive's sleep time if that is > 0 and the
configured default otherwise; the pass ends with a sleep iff the ignore-sleep flag that
`doPoll` leaves (reset to false before `doPoll`, still false after a
directive "no action") is false and the current sleep time is > 0, and then
sleeps exactly that many milliseconds; and the pass does not depend on the
value the flag had when the pass began, so a flag set in one pass never
suppresses the sleep of a later one. -/
theorem iteration_sleep {App : Type} (X : Externals) (W : World App)
    (hframe : ∀ (d : DeploymentBase) (m : Machine App),
      (W.handler.onDeploymentAction d m).2.client.currentSleepTime =
        m.client.currentSleepTime)
    (s s' : Machine App) (h : iteration X W s = (.ok (), s')) :
    ∃ (resp : HttpResult) (s1 : Machine App) (pd : PollingData) (sd : Machine App),
      retryHandler X W s.client.hawkbitURI (pollGet W)
        { s with client := { s.client with ignoreSleep := false } } = (.ok resp, s1) ∧
      X.pollingDataFromString resp.body = .ok pd ∧
      doPoll X W { s with client := { s.client with ignoreSleep := false } } = (.ok (), sd) ∧
      sd.client.currentSleepTime =
        (if pd.getSleepTime > 0 then pd.getSleepTime else s.client.defaultSleepTime) ∧
      (sd.client.ignoreSleep = false ∧ sd.client.currentSleepTime > 0 →
        s' = { sd with trace := sd.trace ++ [Event.sleep sd.client.currentSleepTime] }) ∧
      (¬ (sd.client.ignoreSleep = false ∧ sd.client.currentSleepTime > 0) → s' = sd) ∧
      (pd.getAction = Actions_.NONE → sd.client.ignoreSleep = false) ∧
      (∀ b : Bool,
        iteration X W { s with client := { s.client with ignoreSleep := b } } =
          iteration X W s) := by
  unfold iteration at h
  split at h
  · injection h with h1 _
    exact Except.noConfusion h1
  · rename_i sd hdp
    obtain ⟨resp, s1, pd, hpoll, hdec, hcur, hnone⟩ := doPoll_ok X W hframe _ sd hdp
    refine ⟨resp, s1, pd, sd, hpoll, hdec, hdp, hcur, ?_, ?_, ?_, ?_⟩
    · intro hc
      have hcond : (!sd.client.ignoreSleep && decide (sd.client.currentSleepTime > 0)) = true := by
        simp [hc.1, hc.2]
      rw [if_pos hcond] at h
      injection h with _ h2
      exact h2.symm
    · intro hc
      have hcond :
          ¬ ((!sd.client.ignoreSleep && decide (sd.client.currentSleepTime > 0)) = true) := by
        intro hx
        apply hc
        simp only [Bool.and_eq_true, Bool.not_eq_true', decide_eq_true_eq] at hx
        exact hx
      rw [if_neg hcond] at h
      injection h with _ h2
      exact h2.symm
    · intro hact
      exact hnone hact
    · intro b
      rfl

/-- Witness for C11: a poll answered 200 whose directive is "no action" with
no suggested sleep time; the pass ends with a sleep of the default 1000 ms. -/
theorem iteration_sleep_witness :
    iteration nonePollExternals worldNoCallback sampleMachine =
      (.ok (), (iteration nonePollExternals worldNoCallback sampleMachine).2) ∧
    (iteration nonePollExternals worldNoCallback sampleMachine).2.trace.getLast? =
      some (Event.sleep 1000) ∧
    ∃ (pd : PollingData) (sd : Machine Nat),
      doPoll nonePollExternals worldNoCallback
        { sampleMachine with client := { sampleMachine.client with ignoreSleep := false } } =
          (.ok (), sd) ∧
      sd.client.currentSleepTime =
        (if pd.getSleepTime > 0 then pd.getSleepTime
         else sampleMachine.client.defaultSleepTime) := by
  refine ⟨rfl, by decide, ?_⟩
  obtain ⟨_, _, pd, sd, _, _, h3, h4, _⟩ :=
    iteration_sleep nonePollExternals worldNoCallback (fun _ _ => rfl) sampleMachine
      (iteration nonePollExternals worldNoCallback sampleMachine).2 rfl
  exact ⟨pd, sd, h3, h4⟩

/-! ## Theorems: artifact transfer -/

/-- C15: in `downloadTo` and in `downloadWithReceiver`, for every attempt in
which a response arrived: if its status is not 200, the request function puts
the request on the wire and nothing else (no file write, no call of the
receiver, the outside is as the transport left it), and the attempt fails as
unauthorized for 401 and with the status mismatch (status, 200) for any other
status; unless the library treats the status as bodyless, that failure is
thrown by the response handler itself, before any chunk.  For a status other
than 200 and 401 the whole call of `downloadTo` (entered in a state `s0` whose
file opening leads to `s`) and of `downloadWithReceiver` fails that way after
this one attempt.  If the status is 200 (and has a body), the chunks are
delivered to the file, respectively to the receiver, after the handler
accepted the head. -/
theorem download_checks_status_first {App : Type} (X : Externals) (W : World App)
    (D : Streaming App) (downloadURI : URI)
    (path : String) (func : String → App → Bool × App) (s : Machine App)
    (req : HttpRequest) (reply : StreamReply) (app1 : App)
    (hreq : req =
      { method := Method.GET, path := downloadURI.getPath, headers := s.client.defaultHeaders,
        body := "", contentType := "" })
    (hreply : D.transportStream (newHttpClient s.client downloadURI) req s.app = (reply, app1))
    (hhead : reply.error = Error_Success) :
    (reply.status ≠ 200 →
      wrappedRequest downloadURI (downloadToRequest D downloadURI path) s =
        (.error (if reply.status = 401 then Exn.unauthorized_exception
                 else Exn.http_unexpected_code_exception reply.status 200),
          { client := s.client, app := app1,
            trace := s.trace ++ [Event.invoke (newHttpClient s.client downloadURI),
              Event.wire (WireEvent.http req)] }) ∧
      wrappedRequest downloadURI (downloadWithReceiverRequest D downloadURI func) s =
        (.error (if reply.status = 401 then Exn.unauthorized_exception
                 else Exn.http_unexpected_code_exception reply.status 200),
          { client := s.client, app := app1,
            trace := s.trace ++ [Event.invoke (newHttpClient s.client downloadURI),
              Event.wire (WireEvent.http req)] }) ∧
      (D.bodyless reply.status = false →
        (downloadToRequest D downloadURI path (newHttpClient s.client downloadURI)
            s.client s.app).outcome =
          .error (if reply.status = 401 then Exn.unauthorized_exception
                  else Exn.http_unexpected_code_exception reply.status 200) ∧
        (downloadWithReceiverRequest D downloadURI func (newHttpClient s.client downloadURI)
            s.client s.app).outcome =
          .error (if reply.status = 401 then Exn.unauthorized_exception
                  else Exn.http_unexpected_code_exception reply.status 200)) ∧
      (reply.status ≠ 401 →
        (∀ s0 : Machine App, s = { s0 with app := D.openFile path s0.app } →
          downloadTo X W D downloadURI path s0 =
            (.error (.http_unexpected_code_exception reply.status 200),
              { client := s.client, app := app1,
                trace := s.trace ++ [Event.invoke (newHttpClient s.client downloadURI),
                  Event.wire (WireEvent.http req)] })) ∧
        downloadWithReceiver X W D downloadURI func s =
          (.error (.http_unexpected_code_exception reply.status 200),
            { client := s.client, app := app1,
              trace := s.trace ++ [Event.invoke (newHttpClient s.client downloadURI),
                Event.wire (WireEvent.http req)] }))) ∧
    (reply.status = 200 → D.bodyless 200 = false →
      (downloadToRequest D downloadURI path (newHttpClient s.client downloadURI)
          s.client s.app).emitted =
        WireEvent.http req ::
          (deliver (fun data a => D.fileWrite path data a) WireEvent.fileWrite
            reply.chunks app1).1 ∧
      (downloadWithReceiverRequest D downloadURI func (newHttpClient s.client downloadURI)
          s.client s.app).emitted =
        WireEvent.http req :: (deliver func WireEvent.receive reply.chunks app1).1) := by
  subst hreq
  have hne : ¬ ((200 : Int) = 401) := by decide
  have h1 : (D.transportStream (newHttpClient s.client downloadURI)
      { method := Method.GET, path := downloadURI.getPath, headers := s.client.defaultHeaders,
        body := "", contentType := "" } s.app).1 = reply := by rw [hreply]
  have h2 : (D.transportStream (newHttpClient s.client downloadURI)
      { method := Method.GET, path := downloadURI.getPath, headers := s.client.defaultHeaders,
        body := "", contentType := "" } s.app).2 = app1 := by rw [hreply]
  constructor
  · intro hs
    have hw : wrappedRequest downloadURI (downloadToRequest D downloadURI path) s =
          (.error (if reply.status = 401 then Exn.unauthorized_exception
                   else Exn.http_unexpected_code_exception reply.status 200),
            { client := s.client, app := app1,
              trace := s.trace ++ [Event.invoke (newHttpClient s.client downloadURI),
                Event.wire (WireEvent.http
                  { method := Method.GET, path := downloadURI.getPath,
                    headers := s.client.defaultHeaders, body := "", contentType := "" })] }) ∧
        wrappedRequest downloadURI (downloadWithReceiverRequest D downloadURI func) s =
          (.error (if reply.status = 401 then Exn.unauthorized_exception
                   else Exn.http_unexpected_code_exception reply.status 200),
            { client := s.client, app := app1,
              trace := s.trace ++ [Event.invoke (newHttpClient s.client downloadURI),
                Event.wire (WireEvent.http
                  { method := Method.GET, path := downloadURI.getPath,
                    headers := s.client.defaultHeaders, body := "", contentType := "" })] }) := by
      by_cases h401 : reply.status = 401
      · by_cases hb : D.bodyless reply.status = true
        · have hb2 : D.bodyless 401 = true := by rw [← h401]; exact hb
          simp [wrappedRequest, downloadToRequest, downloadWithReceiverRequest, streamGet,
            checkStatusHandler, checkHttpCode, HTTP_OK, HTTP_UNAUTHORIZED, h1, h2, hhead, h401,
            hb2, Error_Success]
        · have hb2 : ¬ D.bodyless 401 = true := by rw [← h401]; exact hb
          simp [wrappedRequest, downloadToRequest, downloadWithReceiverRequest, streamGet,
            checkStatusHandler, checkHttpCode, HTTP_OK, HTTP_UNAUTHORIZED, h1, h2, hhead, h401,
            hb2]
      · by_cases hb : D.bodyless reply.status = true
        · simp [wrappedRequest, downloadToRequest, downloadWithReceiverRequest, streamGet,
            checkStatusHandler, checkHttpCode, HTTP_OK, HTTP_UNAUTHORIZED, h1, h2, hhead, h401,
            hs, hb, Error_Success]
        · simp [wrappedRequest, downloadToRequest, downloadWithReceiverRequest, streamGet,
            checkStatusHandler, checkHttpCode, HTTP_OK, HTTP_UNAUTHORIZED, h1, h2, hhead, h401,
            hs, hb]
    refine ⟨hw.1, hw.2, ?_, ?_⟩
    · intro hb
      by_cases h401 : reply.status = 401
      · have hb2 : D.bodyless 401 = false := by rw [← h401]; exact hb
        simp [downloadToRequest, downloadWithReceiverRequest, streamGet,
          checkStatusHandler, checkHttpCode, HTTP_OK, HTTP_UNAUTHORIZED, h1, h2, hhead, h401,
          hb2]
      · simp [downloadToRequest, downloadWithReceiverRequest, streamGet,
          checkStatusHandler, checkHttpCode, HTTP_OK, HTTP_UNAUTHORIZED, h1, h2, hhead, h401,
          hs, hb]
    · intro h401
      have hw1 := hw.1
      have hw2 := hw.2
      rw [if_neg h401] at hw1 hw2
      constructor
      · intro s0 hs0
        have hnu : (wrappedRequest downloadURI (downloadToRequest D downloadURI path) s).1 ≠
            .error .unauthorized_exception := by
          rw [hw1]
          intro hx
          injection hx with hx
          exact Exn.noConfusion hx
        have hr := retryHandler_of_not_unauthorized X W downloadURI _ s hnu
        unfold downloadTo
        rw [← hs0, hr, hw1]
      · have hnu : (wrappedRequest downloadURI
            (downloadWithReceiverRequest D downloadURI func) s).1 ≠
            .error .unauthorized_exception := by
          rw [hw2]
          intro hx
          injection hx with hx
          exact Exn.noConfusion hx
        have hr := retryHandler_of_not_unauthorized X W downloadURI _ s hnu
        unfold downloadWithReceiver
        rw [hr, hw2]
  · intro hs hb
    simp [downloadToRequest, downloadWithReceiverRequest, streamGet, checkStatusHandler,
      checkHttpCode, HTTP_OK, HTTP_UNAUTHORIZED, h1, h2, hhead, hs, hb, hne]

/-- Witness for C15: the artifact server answers 404 to the first download
request: the request goes on the wire, no chunk reaches the file or the
receiver, and `downloadTo` and `downloadWithReceiver` fail with the mismatch
(404, 200). -/
theorem download_checks_status_first_witness :
    downloadTo sampleExternals worldNoCallback artifactServer sampleDownloadURI "/tmp/fw.bin"
        sampleMachine =
      (.error (.http_unexpected_code_exception 404 200),
        { client := sampleClient, app := 1,
          trace :=
            [Event.invoke
                { origin := "https://hb.example", clientCert := none,
                  serverCertificateVerification := true },
              Event.wire (WireEvent.http
                { method := Method.GET, path := "/artifacts/fw.bin", headers := [], body := "",
                  contentType := "" })] }) ∧
    (downloadWithReceiver sampleExternals worldNoCallback artifactServer sampleDownloadURI
        (fun _ n => (true, n + 10)) sampleMachine).1 =
      .error (.http_unexpected_code_exception 404 200) := by
  have h := ((download_checks_status_first sampleExternals worldNoCallback artifactServer
    sampleDownloadURI "/tmp/fw.bin"
    (fun _ n => (true, n + 10)) sampleMachine
    { method := Method.GET, path := "/artifacts/fw.bin", headers := [], body := "",
      contentType := "" }
    { error := 0, status := 404, chunks := ["ab", "cd"], bodyError := 0 } 1
    rfl rfl rfl).1 (by decide)).2.2.2 (by decide)
  refine ⟨h.1 sampleMachine rfl, ?_⟩
  rw [h.2]

end ddi
